import Mathlib

/-!
Verification of the GridWatchNet network-telemetry platform against its
natural-language specification.

The Lean definitions below are a shallow embedding of the Python sources:

* apps/syslog/src/syslog/parser.py      (RFC 3164 / RFC 5424 syslog parsing)
* apps/syslog/src/syslog/collector.py   (buffer flush and circular-buffer cleanup)
* apps/npm/src/npm/collectors/snmpv3_poller.py  (SNMP walk and device polling)
* apps/npm/src/npm/services/crypto.py   (AES-256-GCM credential storage)
* apps/stig/src/stig/collectors/juniper_stig_checker.py (STIG evaluation)

Modelling conventions:

* Python strings are Lean String / List Char.  The character classes of
  Python regular expressions (\\d, \\s, \\w) are restricted to their ASCII
  subsets; no property proved here involves non-ASCII digit or space
  characters.
* Python regular expressions are hand-compiled to deterministic matching
  functions with the same semantics on the inputs exercised here.  The
  semantics of a dot (no newline) and of a final anchor (dollar accepts a
  single trailing newline) are implemented explicitly.
* Fallible Python code (try/except) is embedded with Option.
* Machine integers are Nat / Int; Python floor division (//) is Int.fdiv.
-/

/-! ## Generic string helpers (ASCII restrictions of Python primitives) -/

/-- ASCII whitespace, the exercised subset of the Python regex class \\s
and of str.strip / str.split. -/
def isSpaceC (c : Char) : Bool :=
  c = ' ' || c = '\t' || c = '\n' || c = '\r' || c = '\x0b' || c = '\x0c'

/-- ASCII lower-casing of one character (Python str.lower on ASCII input). -/
def lowerChar (c : Char) : Char :=
  if 'A' ≤ c ∧ c ≤ 'Z' then Char.ofNat (c.toNat + 32) else c

/-- ASCII lower-casing of a character list. -/
def lowerList (l : List Char) : List Char := l.map lowerChar

/-- ASCII lower-casing of a string (Python str.lower on ASCII input). -/
def lowerStr (s : String) : String := String.mk (lowerList s.data)

/-- Contiguous-substring test on character lists: Python `needle in hay`. -/
def containsSub : List Char → List Char → Bool
  | hay, needle =>
    if needle.isPrefixOf hay then true
    else
      match hay with
      | [] => false
      | _ :: t => containsSub t needle

/-- Contiguous-substring test on strings: Python `needle in hay`. -/
def containsStr (hay needle : String) : Bool := containsSub hay.data needle.data

/-- Case-insensitive substring test: Python `needle in hay.lower()` with a
lower-case needle, or an (?i) regex literal search. -/
def containsStrCI (hay needle : String) : Bool :=
  containsSub (lowerList hay.data) (lowerList needle.data)

/-- Python str.strip(): remove leading and trailing (ASCII) whitespace. -/
def stripChars (l : List Char) : List Char :=
  ((l.dropWhile isSpaceC).reverse.dropWhile isSpaceC).reverse

/-- Python str.strip() on a String. -/
def stripStr (s : String) : String := String.mk (stripChars s.data)

/-- Decimal digits to a natural number (the int() of a matched digit group). -/
def digitsToNat (l : List Char) : Nat :=
  l.foldl (fun acc c => acc * 10 + (c.toNat - '0'.toNat)) 0

/-- Python "sep".join(list) (String.intercalate, restated for clean lemmas). -/
def pyJoin (sep : String) : List String → String
  | [] => ""
  | [s] => s
  | s :: rest => s ++ sep ++ pyJoin sep rest

/-- Split a character list at every character matching the separator
test, keeping empty fields (the behaviour of Python str.split(sep)). -/
def pySplitCharP (p : Char → Bool) : List Char → List (List Char)
  | [] => [[]]
  | c :: t =>
    match pySplitCharP p t with
    | [] => [[]]
    | f :: rest => if p c then [] :: f :: rest else (c :: f) :: rest

/-- Python str.split() with no argument: split on whitespace runs,
dropping empty fields. -/
def pySplitWs (s : String) : List String :=
  ((pySplitCharP isSpaceC s.data).filter (fun t => ¬ t.isEmpty)).map String.mk

/-- Python pre-test s.startswith(pre). -/
def pyStartsWith (s pre : String) : Bool :=
  pre.data.isPrefixOf s.data

/-! ## Syslog message parser
(apps/syslog/src/syslog/parser.py) -/

/-- A parsed timestamp as produced by datetime.strptime / fromisoformat.
Only the fields the parser fills are modelled. -/
structure SyslogTimestamp where
  year : Nat
  month : Nat
  day : Nat
  hour : Nat
  minute : Nat
  second : Nat
deriving DecidableEq, Repr

/-- Parsed syslog message with all fields
(dataclass ParsedSyslogMessage of parser.py). -/
structure ParsedSyslogMessage where
  facility : Nat
  severity : Nat
  version : Nat
  timestamp : Option SyslogTimestamp
  hostname : Option String
  app_name : Option String
  proc_id : Option String
  msg_id : Option String
  structured_data : Option (List (String × List (String × String)))
  message : String
  device_type : Option String
  event_type : Option String
  raw_message : String
deriving DecidableEq, Repr

/-- parse_priority of parser.py: facility is PRI shifted right by 3,
severity is PRI masked with 0x07.  The int() conversion cannot fail on a
matched digit group, so the ValueError default (1, 6) is unreachable here
and is produced by the callers when no PRI group matches at all. -/
def parse_priority (pri : Nat) : Nat × Nat :=
  (pri >>> 3, pri &&& 0x07)

/-- Device type detection patterns of parser.py.  Each pattern is an
(?i) alternation of literals; `·` separations never occur here. -/
def DEVICE_TYPE_PATTERNS : List (List (List String) × String) :=
  [ ([["cisco"]], "cisco"),
    ([["juniper"], ["junos"]], "juniper"),
    ([["paloalto"], ["pan-os"]], "paloalto"),
    ([["fortinet"], ["fortigate"]], "fortinet"),
    ([["f5"], ["bigip"]], "f5"),
    ([["arista"]], "arista"),
    ([["hp"], ["procurve"], ["aruba"]], "hp"),
    ([["mellanox"]], "mellanox"),
    ([["vmware"], ["esxi"], ["vcenter"]], "vmware"),
    ([["linux"], ["ubuntu"], ["centos"], ["rhel"], ["debian"]], "linux"),
    ([["windows"], ["microsoft"]], "windows"),
    ([["pfsense"]], "pfsense") ]

/-- Event type detection patterns of parser.py.  An alternative with two
literals [a, b] stands for the regex a.*b (the gap cannot cross a
newline, since a regex dot does not match one). -/
def EVENT_TYPE_PATTERNS : List (List (List String) × String) :=
  [ ([["login"], ["logon"], ["auth"], ["ssh"], ["session", "open"]], "authentication"),
    ([["logout"], ["logoff"], ["session", "close"]], "logout"),
    ([["fail"], ["denied"], ["reject"], ["block"]], "security_alert"),
    ([["interface", "up"], ["interface", "down"],
      ["link", "up"], ["link", "down"]], "link_state"),
    ([["error"], ["err"], ["fail"], ["critical"]], "error"),
    ([["warn"], ["warning"]], "warning"),
    ([["config"], ["configuration"], ["change"]], "configuration"),
    ([["bgp"], ["ospf"], ["eigrp"], ["routing"]], "routing"),
    ([["cpu"], ["memory"], ["disk"], ["utilization"]], "performance"),
    ([["backup"], ["restore"], ["snapshot"]], "backup"),
    ([["firewall"], ["acl"], ["rule"], ["policy"]], "firewall"),
    ([["certificate"], ["ssl"], ["tls"]], "certificate") ]

/-- Matcher for a chain of literals separated by regex dots-star gaps:
the first literal may occur anywhere in the text, and each gap (and each
further literal) must then stay on the same line, because a regex dot
does not match a newline. -/
def chainSearchGo : Nat → List (List Char) → List Char → Bool
  | _, [], _ => true
  | 0, _ :: _, _ => false
  | fuel + 1, l :: rest, s =>
    (l.isPrefixOf s &&
      chainSearchGo fuel rest ((s.drop l.length).takeWhile (fun c => c ≠ '\n')))
    || (match s with
        | [] => false
        | _ :: t => chainSearchGo fuel (l :: rest) t)

/-- Entry point of the chain matcher; the fuel covers every scan
position and pattern element. -/
def chainSearch (pats : List (List Char)) (s : List Char) : Bool :=
  chainSearchGo (pats.length + s.length + 1) pats s

/-- re.search of one (?i) alternation pattern against already lowered text. -/
def patSearch (s : List Char) (alts : List (List String)) : Bool :=
  alts.any fun alt => chainSearch (alt.map String.data) s

/-- detect_device_type of parser.py: first matching pattern over
"{hostname or ''} {message}". -/
def detect_device_type (message : String) (hostname : Option String) : Option String :=
  let text := (hostname.getD "") ++ " " ++ message
  let low := lowerList text.data
  DEVICE_TYPE_PATTERNS.findSome? fun (p, device_type) =>
    if patSearch low p then some device_type else none

/-- detect_event_type of parser.py: first matching pattern over the message. -/
def detect_event_type (message : String) : Option String :=
  let low := lowerList message.data
  EVENT_TYPE_PATTERNS.findSome? fun (p, event_type) =>
    if patSearch low p then some event_type else none

/-- The PRI opening of every parser regex: a leading < then one to three
decimal digits then >.  Returns the PRI value and the remaining text.
With four or more digits no split can satisfy the regex, since the
character after one to three digits is again a digit and not >. -/
def priHead : List Char → Option (Nat × List Char)
  | '<' :: rest =>
    let ds := rest.takeWhile Char.isDigit
    if 1 ≤ ds.length ∧ ds.length ≤ 3 then
      match rest.drop ds.length with
      | '>' :: tail => some (digitsToNat ds, tail)
      | _ => none
    else none
  | _ => none

/-- The trailing (.*)$ of the parser regexes: a regex dot does not match
a newline and the dollar also accepts a position just before one final
newline, so the group matches exactly when the text minus an optional
final newline contains no newline, and captures that text. -/
def restDollar (l : List Char) : Option (List Char) :=
  let core := match l.reverse with
    | '\n' :: t => t.reverse
    | _ => l
  if core.contains '\n' then none else some core

/-- The RFC 3164 timestamp-hostname-rest part of the parser regex,
matched after the PRI: three letters, whitespace, one or two digits,
whitespace, HH:MM:SS, whitespace, a hostname token, whitespace, rest. -/
structure Rfc3164Groups where
  mon : List Char
  day : Nat
  hh : Nat
  mins : Nat
  ss : Nat
  host : List Char
  rest : List Char

/-- Deterministic implementation of the body of the RFC 3164 regex of
parse_rfc3164 (pattern r"^<pri>([A-Za-z]{3}\\s+\\d{1,2}\\s+\\d{2}:\\d{2}:\\d{2})\\s+(\\S+)\\s+(.*)$"
after the PRI).  The whitespace runs and tokens are unambiguous except
for inputs with embedded newlines inside the trailing whitespace, which
no datagram contains after the collector strips the frame. -/
def rfc3164After (tail : List Char) : Option Rfc3164Groups :=
  match tail with
  | c1 :: c2 :: c3 :: r1 =>
    if c1.isAlpha ∧ c2.isAlpha ∧ c3.isAlpha then
      let ws1 := r1.takeWhile isSpaceC
      if ws1.length = 0 then none else
      let r2 := r1.drop ws1.length
      let ds := r2.takeWhile Char.isDigit
      if 1 ≤ ds.length ∧ ds.length ≤ 2 then
        let r3 := r2.drop ds.length
        let ws2 := r3.takeWhile isSpaceC
        if ws2.length = 0 then none else
        let r4 := r3.drop ws2.length
        match r4 with
        | h1 :: h2 :: ':' :: m1 :: m2 :: ':' :: s1 :: s2 :: r5 =>
          if h1.isDigit ∧ h2.isDigit ∧ m1.isDigit ∧ m2.isDigit ∧
             s1.isDigit ∧ s2.isDigit then
            let ws3 := r5.takeWhile isSpaceC
            if ws3.length = 0 then none else
            let r6 := r5.drop ws3.length
            let host := r6.takeWhile (fun c => ¬ isSpaceC c)
            if host.length = 0 then none else
            let r7 := r6.drop host.length
            let ws4 := r7.takeWhile isSpaceC
            if ws4.length = 0 then none else
            let r8 := r7.drop ws4.length
            match restDollar r8 with
            | some rest =>
              some { mon := [c1, c2, c3], day := digitsToNat ds,
                     hh := digitsToNat [h1, h2], mins := digitsToNat [m1, m2],
                     ss := digitsToNat [s1, s2], host := host, rest := rest }
            | none => none
          else none
        | _ => none
      else none
    else none
  | _ => none

/-- Month lookup of datetime.strptime %b (case-insensitive month
abbreviation). -/
def monthFromAbbrev (mon : List Char) : Option Nat :=
  let m := String.mk (lowerList mon)
  if m = "jan" then some 1 else if m = "feb" then some 2 else
  if m = "mar" then some 3 else if m = "apr" then some 4 else
  if m = "may" then some 5 else if m = "jun" then some 6 else
  if m = "jul" then some 7 else if m = "aug" then some 8 else
  if m = "sep" then some 9 else if m = "oct" then some 10 else
  if m = "nov" then some 11 else if m = "dec" then some 12 else none

/-- Gregorian leap year rule used by the datetime validation. -/
def isLeapYear (y : Nat) : Bool :=
  (y % 4 = 0 && y % 100 ≠ 0) || y % 400 = 0

/-- Days in a month for the datetime day-of-month validation. -/
def daysInMonth (m y : Nat) : Nat :=
  if m = 2 then (if isLeapYear y then 29 else 28)
  else if m = 4 ∨ m = 6 ∨ m = 9 ∨ m = 11 then 30
  else 31

/-- The try around datetime.strptime(f"{year} {ts}", "%Y %b %d %H:%M:%S")
in parse_rfc3164: an unknown month abbreviation, a day outside the
month, or an out-of-range time component raises ValueError, caught to
None. -/
def strptime3164 (currentYear : Nat) (g : Rfc3164Groups) : Option SyslogTimestamp :=
  match monthFromAbbrev g.mon with
  | none => none
  | some m =>
    if 1 ≤ g.day ∧ g.day ≤ daysInMonth m currentYear ∧
       g.hh ≤ 23 ∧ g.mins ≤ 59 ∧ g.ss ≤ 59 then
      some { year := currentYear, month := m, day := g.day,
             hour := g.hh, minute := g.mins, second := g.ss }
    else none

/-- The tag regex r"^(\\S+?)(?:\\[(\\d+)\\])?:\\s*(.*)$" of parse_rfc3164:
a shortest non-space run, then an optional [PID], then a colon, then the
message after optional whitespace.  The bracket alternative is tried
first at each candidate split, like the regex engine does.  The input
contains no newline (it is a restDollar capture), so the final group is
the plain remainder. -/
def tagBracket (rest : List Char) : Option (List Char × List Char) :=
  match rest with
  | '[' :: r =>
    let ds := r.takeWhile Char.isDigit
    if ds.length = 0 then none
    else
      match r.drop ds.length with
      | ']' :: ':' :: rr => some (ds, rr)
      | _ => none
  | _ => none

/-- Recursive search for the shortest tag split; acc is the reversed
consumed non-space run. -/
def tagGo : List Char → List Char → Option (List Char × Option (List Char) × List Char)
  | acc, rest =>
    match tagBracket rest with
    | some (pid, rr) => some (acc.reverse, some pid, rr.dropWhile isSpaceC)
    | none =>
      match rest with
      | ':' :: r => some (acc.reverse, none, r.dropWhile isSpaceC)
      | c :: r => if isSpaceC c then none else tagGo (c :: acc) r
      | [] => none

/-- Tag and PID extraction from the message rest
(tag_match of parse_rfc3164). -/
def tagMatch : List Char → Option (List Char × Option (List Char) × List Char)
  | [] => none
  | c :: r => if isSpaceC c then none else tagGo [c] r

/-- The fallback regex r"^<(\\d{1,3})>(.*)$" of parse_rfc3164. -/
def priFallback (raw : List Char) : Option (Nat × List Char) :=
  match priHead raw with
  | some (pri, tail) =>
    match restDollar tail with
    | some rest => some (pri, rest)
    | none => none
  | none => none

/-- parse_rfc3164 of parser.py.  currentYear models datetime.now().year,
which the source injects because an RFC 3164 timestamp has no year. -/
def parse_rfc3164 (currentYear : Nat) (raw : String) : ParsedSyslogMessage :=
  match priHead raw.data with
  | some (pri, tail) =>
    match rfc3164After tail with
    | some g =>
      let fs := parse_priority pri
      let timestamp := strptime3164 currentYear g
      let hostS := String.mk g.host
      match tagMatch g.rest with
      | some (app, pid, msg) =>
        let message := String.mk msg
        { facility := fs.1, severity := fs.2, version := 0, timestamp,
          hostname := some hostS, app_name := some (String.mk app),
          proc_id := pid.map String.mk, msg_id := none, structured_data := none,
          message,
          device_type := detect_device_type message (some hostS),
          event_type := detect_event_type message, raw_message := raw }
      | none =>
        let message := String.mk g.rest
        { facility := fs.1, severity := fs.2, version := 0, timestamp,
          hostname := some hostS, app_name := none, proc_id := none,
          msg_id := none, structured_data := none, message,
          device_type := detect_device_type message (some hostS),
          event_type := detect_event_type message, raw_message := raw }
    | none =>
      match priFallback raw.data with
      | some (pri2, rest) =>
        let fs := parse_priority pri2
        let message := String.mk rest
        { facility := fs.1, severity := fs.2, version := 0, timestamp := none,
          hostname := none, app_name := none, proc_id := none, msg_id := none,
          structured_data := none, message,
          device_type := detect_device_type message none,
          event_type := detect_event_type message, raw_message := raw }
      | none =>
        { facility := 1, severity := 6, version := 0, timestamp := none,
          hostname := none, app_name := none, proc_id := none, msg_id := none,
          structured_data := none, message := raw,
          device_type := detect_device_type raw none,
          event_type := detect_event_type raw, raw_message := raw }
  | none =>
    { facility := 1, severity := 6, version := 0, timestamp := none,
      hostname := none, app_name := none, proc_id := none, msg_id := none,
      structured_data := none, message := raw,
      device_type := detect_device_type raw none,
      event_type := detect_event_type raw, raw_message := raw }

/-- Whitespace-separated token group (\\S+)\\s+ of the RFC 5424 regex:
a non-empty non-space run followed by at least one whitespace. -/
def tokenWs (s : List Char) : Option (List Char × List Char) :=
  let t := s.takeWhile (fun c => ¬ isSpaceC c)
  if t.length = 0 then none
  else
    let r := s.drop t.length
    let w := r.takeWhile isSpaceC
    if w.length = 0 then none else some (t, r.drop w.length)

/-- Digit group (\\d+)\\s+ of the RFC 5424 regex (the VERSION field). -/
def digitsWs (s : List Char) : Option (Nat × List Char) :=
  let t := s.takeWhile Char.isDigit
  if t.length = 0 then none
  else
    let r := s.drop t.length
    let w := r.takeWhile isSpaceC
    if w.length = 0 then none else some (digitsToNat t, r.drop w.length)

/-- One lazy bracket block \\[.*?\\] of the RFC 5424 structured-data
group: from an opening bracket to the first closing bracket, with no
newline in between (a regex dot does not match one).  Returns the block
including its brackets and the remainder. -/
def bracketOne (s : List Char) : Option (List Char × List Char) :=
  match s with
  | '[' :: r =>
    let content := r.takeWhile (fun c => c ≠ ']')
    if content.contains '\n' then none
    else
      match r.drop content.length with
      | ']' :: rr => some ('[' :: (content ++ [']']), rr)
      | _ => none
  | _ => none

/-- The greedy star (?:\\s*\\[.*?\\])* after the first bracket block:
keeps consuming whitespace-then-block while possible. -/
def bracketStar : Nat → List Char → List Char → List Char × List Char
  | 0, acc, s => (acc, s)
  | fuel + 1, acc, s =>
    let w := s.takeWhile isSpaceC
    match bracketOne (s.drop w.length) with
    | some (blk, rest) => bracketStar fuel (acc ++ w ++ blk) rest
    | none => (acc, s)

/-- The structured-data group (-|\\[.*?\\](?:\\s*\\[.*?\\])*) of the RFC
5424 regex; returns the captured group text and the remainder. -/
def sdGroup (s : List Char) : Option (List Char × List Char) :=
  match s with
  | '-' :: r => some (['-'], r)
  | _ =>
    match bracketOne s with
    | some (blk, rest) =>
      let res := bracketStar rest.length blk rest
      some res
    | none => none

/-- Lazy name="value" match of the parameter pattern (\\S+?)="([^"]*)"
starting exactly at the given position; acc is the reversed name prefix
consumed so far. -/
def sdParamAt : List Char → List Char → Option (List Char × List Char × List Char)
  | '=' :: '"' :: r, acc =>
    if acc.isEmpty then none
    else
      let v := r.takeWhile (fun c => c ≠ '"')
      match r.drop v.length with
      | '"' :: rr => some (acc.reverse, v, rr)
      | _ => none
  | c :: r, acc => if isSpaceC c then none else sdParamAt r (c :: acc)
  | [], _ => none

/-- Parameter list parsing of parse_structured_data: every non-overlapping
occurrence of (\\S+?)="([^"]*)" inside one block body. -/
def sdParams : Nat → List Char → List (String × String)
  | 0, _ => []
  | _, [] => []
  | fuel + 1, s =>
    match sdParamAt s [] with
    | some (name, value, rest) => (String.mk name, String.mk value) :: sdParams fuel rest
    | none =>
      match s with
      | [] => []
      | _ :: t => sdParams fuel t

/-- One SD element match of the finditer pattern
\\[(\\S+?)(?:\\s+(.*?))?\\] of parse_structured_data: lazy SD-ID then
either whitespace and a lazy parameter run up to the first closing
bracket, or a closing bracket directly. -/
def sdElemAt (s : List Char) : Option (List Char × List Char × List Char) :=
  match s with
  | '[' :: r => go r []
  | _ => none
where
  go : List Char → List Char → Option (List Char × List Char × List Char)
    | [], _ => none
    | c :: r, acc =>
      if c = ']' then
        if acc.isEmpty then none else some (acc.reverse, [], r)
      else if isSpaceC c then
        if acc.isEmpty then none
        else
          let r2 := (c :: r).dropWhile isSpaceC
          let params := r2.takeWhile (fun d => d ≠ ']')
          if params.contains '\n' then none
          else
            match r2.drop params.length with
            | ']' :: rr => some (acc.reverse, params, rr)
            | _ => none
      else go r (c :: acc)

/-- parse_structured_data of parser.py: fold all SD elements of the
captured group into an association list sd_id to parameter map. -/
def parse_structured_data (sd : String) : List (String × List (String × String)) :=
  go (sd.data.length + 1) sd.data []
where
  go : Nat → List Char → List (String × List (String × String)) →
      List (String × List (String × String))
    | 0, _, acc => acc.reverse
    | _, [], acc => acc.reverse
    | fuel + 1, s, acc =>
      match sdElemAt s with
      | some (sdId, params, rest) =>
        go fuel rest ((String.mk sdId, sdParams (params.length + 1) params) :: acc)
      | none =>
        match s with
        | [] => acc.reverse
        | _ :: t => go fuel t acc

/-- Minimal model of datetime.fromisoformat as used on RFC 5424
timestamps after replacing Z with +00:00: YYYY-MM-DD, then optionally a
T or space separator and HH:MM:SS with optional fractional seconds and
optional +HH:MM / -HH:MM offset.  The fraction and offset are validated
and discarded; only the clock fields are kept.  -/
def fromIso (s : List Char) : Option SyslogTimestamp :=
  match s with
  | y1 :: y2 :: y3 :: y4 :: '-' :: mo1 :: mo2 :: '-' :: d1 :: d2 :: rest =>
    if y1.isDigit ∧ y2.isDigit ∧ y3.isDigit ∧ y4.isDigit ∧
       mo1.isDigit ∧ mo2.isDigit ∧ d1.isDigit ∧ d2.isDigit then
      let y := digitsToNat [y1, y2, y3, y4]
      let mo := digitsToNat [mo1, mo2]
      let d := digitsToNat [d1, d2]
      if 1 ≤ mo ∧ mo ≤ 12 ∧ 1 ≤ d ∧ d ≤ daysInMonth mo y then
        match rest with
        | [] => some { year := y, month := mo, day := d, hour := 0, minute := 0, second := 0 }
        | sep :: h1 :: h2 :: ':' :: mi1 :: mi2 :: ':' :: s1 :: s2 :: tail =>
          if (sep = 'T' ∨ sep = ' ') ∧ h1.isDigit ∧ h2.isDigit ∧
             mi1.isDigit ∧ mi2.isDigit ∧ s1.isDigit ∧ s2.isDigit then
            let hh := digitsToNat [h1, h2]
            let mi := digitsToNat [mi1, mi2]
            let ss := digitsToNat [s1, s2]
            if hh ≤ 23 ∧ mi ≤ 59 ∧ ss ≤ 59 ∧ isoTailOk tail then
              some { year := y, month := mo, day := d, hour := hh, minute := mi, second := ss }
            else none
          else none
        | _ => none
      else none
    else none
  | _ => none
where
  /-- Optional .ffffff fraction followed by an optional +HH:MM offset. -/
  isoTailOk (tail : List Char) : Bool :=
    let afterFrac :=
      match tail with
      | '.' :: r =>
        let ds := r.takeWhile Char.isDigit
        if ds.length = 3 ∨ ds.length = 6 then some (r.drop ds.length) else none
      | _ => some tail
    match afterFrac with
    | none => false
    | some t =>
      match t with
      | [] => true
      | sg :: o1 :: o2 :: ':' :: o3 :: o4 :: [] =>
        (sg = '+' ∨ sg = '-') ∧ o1.isDigit ∧ o2.isDigit ∧ o3.isDigit ∧ o4.isDigit
      | _ => false

/-- parse_rfc5424 of parser.py: the eight-group regex, nil handling,
ISO timestamp, structured data; on a failed match it falls back to
parse_rfc3164. -/
def parse_rfc5424 (currentYear : Nat) (raw : String) : ParsedSyslogMessage :=
  let fallback := parse_rfc3164 currentYear raw
  match priHead raw.data with
  | none => fallback
  | some (pri, t0) =>
    match digitsWs t0 with
    | none => fallback
    | some (version, t1) =>
      match tokenWs t1 with
      | none => fallback
      | some (tsTok, t2) =>
        match tokenWs t2 with
        | none => fallback
        | some (hostTok, t3) =>
          match tokenWs t3 with
          | none => fallback
          | some (appTok, t4) =>
            match tokenWs t4 with
            | none => fallback
            | some (procTok, t5) =>
              match tokenWs t5 with
              | none => fallback
              | some (msgidTok, t6) =>
                match sdGroup t6 with
                | none => fallback
                | some (sdStr, t7) =>
                  match restDollar (t7.dropWhile isSpaceC) with
                  | none => fallback
                  | some msg =>
                    let fs := parse_priority pri
                    let timestamp :=
                      if tsTok = ['-'] then none
                      else fromIso ((tsTok.filter (fun c => c ≠ 'Z')) ++
                        (if tsTok.contains 'Z' then "+00:00".data else []))
                    let nil : List Char → Option String := fun tk =>
                      if tk = ['-'] then none else some (String.mk tk)
                    let message := String.mk msg
                    let hostname := nil hostTok
                    { facility := fs.1, severity := fs.2, version,
                      timestamp, hostname,
                      app_name := nil appTok, proc_id := nil procTok,
                      msg_id := nil msgidTok,
                      structured_data :=
                        if sdStr = ['-'] then none
                        else some (parse_structured_data (String.mk sdStr)),
                      message,
                      device_type := detect_device_type message hostname,
                      event_type := detect_event_type message,
                      raw_message := raw }

/-- The RFC 5424 detection regex r"^<\\d{1,3}>\\d\\s" of
parse_syslog_message. -/
def rfc5424Check (raw : List Char) : Bool :=
  match priHead raw with
  | some (_, tail) =>
    match tail with
    | d :: w :: _ => d.isDigit && isSpaceC w
    | _ => false
  | none => false

/-- parse_syslog_message of parser.py: auto-detect the format and
dispatch. -/
def parse_syslog_message (currentYear : Nat) (raw : String) : ParsedSyslogMessage :=
  if rfc5424Check raw.data then parse_rfc5424 currentYear raw
  else parse_rfc3164 currentYear raw

/-! ## Syslog collector: buffer flush and circular buffer
(apps/syslog/src/syslog/collector.py) -/

/-- The batch insert size of SyslogCollector (self.batch_size = 100). -/
def batch_size : Nat := 100

/-- In-memory collector state relevant for flushing: the event buffer
and the already persisted rows of syslog.events, over an abstract event
type. -/
structure CollectorState (α : Type) where
  event_buffer : List α
  db_events : List α
deriving DecidableEq

/-- One call of _flush_buffer_internal of collector.py.  dbFail says
whether the batch insert raises.  The method swaps the buffer out
(events = self.event_buffer; self.event_buffer = []) before awaiting
the insert.  buffer_lock is held across the whole method and across
every append to self.event_buffer (both call sites take it, and
asyncio.Lock stays held over the awaits inside the with-block), so at
the except clause self.event_buffer is exactly the empty list assigned
before the try: the re-queue guard len(self.event_buffer) <
batch_size * 10 compares against that empty buffer, and on failure the
swapped-out events are put back as the whole buffer. -/
def flush_buffer_internal {α : Type} (dbFail : Bool)
    (st : CollectorState α) : CollectorState α :=
  if st.event_buffer.isEmpty then st
  else
    let events := st.event_buffer
    let buffer1 : List α := []
    if dbFail then
      if buffer1.length < batch_size * 10 then
        { event_buffer := events ++ buffer1, db_events := st.db_events }
      else
        { event_buffer := buffer1, db_events := st.db_events }
    else
      { event_buffer := buffer1, db_events := st.db_events ++ events }

/-- A value returned by an SNMP GET / NEXT: either one that int() and
float() convert (all counters used here are integral), or one they
reject with ValueError / TypeError. -/
inductive SnmpVal
  | num (n : Int)
  | other
deriving DecidableEq

/-- The guarded int() conversion applied to SNMP values throughout the
poller (try int(x) except (ValueError, TypeError)). -/
def snmpToInt : SnmpVal → Option Int
  | .num n => some n
  | .other => none

/-- Truthiness of an SNMP value (Python `if descr_value`). -/
def snmpTruthy : SnmpVal → Bool
  | .num n => n ≠ 0
  | .other => true

/-- Rendering of an SNMP value (Python str(descr_value)); opaque values
render as an unspecified marker. -/
def snmpStr : SnmpVal → String
  | .num n => toString n
  | .other => "<value>"

/-- One SNMP GETNEXT exchange of SNMPv3Client.walk, as seen by the walk
loop: either a returned varbind (the request carries exactly one OID, so
the response carries exactly one varbind) or a failed / empty response
(error_indication, error_status, or no varbinds), which breaks the
loop. -/
def WalkResponse := Option (String × SnmpVal)

/-- Association-list upsert: Python dict assignment results[k] = v. -/
def assocSet {β : Type} (d : List (String × β)) (k : String) (v : β) :
    List (String × β) :=
  if d.any (fun p => p.1 = k) then
    d.map (fun p => if p.1 = k then (k, v) else p)
  else d ++ [(k, v)]

/-- Association-list lookup: Python dict.get(k). -/
def assocGet {β : Type} (d : List (String × β)) (k : String) : Option β :=
  (d.find? (fun p => p.1 = k)).map Prod.snd

/-- SNMPv3Client.walk of snmpv3_poller.py over a given sequence of
GETNEXT responses: while rows_fetched < max_rows, take the next
response; stop on an error or empty response; stop and return the
collected results as soon as the returned OID string no longer starts
with the root OID string; otherwise record the varbind and continue.
The Python results dict is modelled as an association list with
upsert. -/
def walk (root : String) (max_rows : Nat) (responses : List WalkResponse) :
    List (String × SnmpVal) :=
  go responses 0 []
where
  go : List WalkResponse → Nat → List (String × SnmpVal) → List (String × SnmpVal)
    | resps, rows, acc =>
      if rows < max_rows then
        match resps with
        | [] => acc
        | none :: _ => acc
        | some (oid_str, v) :: rest =>
          if pyStartsWith oid_str root then
            go rest (rows + 1) (assocSet acc oid_str v)
          else acc
      else acc

/-- The walk root of the interface table: OID_IF_DESCR (ifDescr). -/
def OID_IF_DESCR : String := "1.3.6.1.2.1.2.2.1.2"

/-- Python int() on a string: optional surrounding whitespace, optional
sign, at least one (ASCII) digit. -/
def pyIntOfString (s : String) : Option Int :=
  let t := stripChars s.data
  match t with
  | '-' :: ds =>
    if ds.length ≠ 0 ∧ ds.all Char.isDigit then some (-(digitsToNat ds : Int)) else none
  | '+' :: ds =>
    if ds.length ≠ 0 ∧ ds.all Char.isDigit then some (digitsToNat ds : Int) else none
  | ds =>
    if ds.length ≠ 0 ∧ ds.all Char.isDigit then some (digitsToNat ds : Int) else none

/-- oid_str.split(".")[-1] of _get_interface_metrics. -/
def lastDotComponent (s : String) : String :=
  String.mk ((pySplitCharP (fun c => c = '.') s.data).getLastD [])

/-- The per-interface GET responses consumed by _get_interface_metrics
for one if_index (each is one awaited SNMPv3Client.get, None on any
error). -/
structure InterfaceRowEnv where
  oper_status : Option SnmpVal := none
  admin_status : Option SnmpVal := none
  hc_in_octets : Option SnmpVal := none
  in_octets_32 : Option SnmpVal := none
  hc_out_octets : Option SnmpVal := none
  out_octets_32 : Option SnmpVal := none
  in_errors : Option SnmpVal := none
  out_errors : Option SnmpVal := none
  in_discards : Option SnmpVal := none
  out_discards : Option SnmpVal := none
  high_speed : Option SnmpVal := none
  if_speed : Option SnmpVal := none

/-- One interface record assembled by _get_interface_metrics (the
Python dict with optional keys). -/
structure InterfaceEntry where
  if_index : Int
  name : String
  oper_status : Option Int := none
  admin_status : Option Int := none
  in_octets : Option Int := none
  out_octets : Option Int := none
  in_errors : Option Int := none
  out_errors : Option Int := none
  in_discards : Option Int := none
  out_discards : Option Int := none
  speed_mbps : Option Int := none

/-- Preferred 64-bit counter with 32-bit fallback: the fallback GET is
issued only when the first GET returned None; a present but
unconvertible value leaves the field unset (try/except pass). -/
def hcOr32 (hc fallback : Option SnmpVal) : Option Int :=
  match hc with
  | some v => snmpToInt v
  | none => fallback.bind snmpToInt

/-- One row of _get_interface_metrics after the index was extracted. -/
def mkInterfaceEntry (idx : Int) (descr : SnmpVal) (r : InterfaceRowEnv) : InterfaceEntry :=
  { if_index := idx,
    name := if snmpTruthy descr then snmpStr descr
            else "Interface " ++ toString idx,
    oper_status := r.oper_status.bind snmpToInt,
    admin_status := r.admin_status.bind snmpToInt,
    in_octets := hcOr32 r.hc_in_octets r.in_octets_32,
    out_octets := hcOr32 r.hc_out_octets r.out_octets_32,
    in_errors := r.in_errors.bind snmpToInt,
    out_errors := r.out_errors.bind snmpToInt,
    in_discards := r.in_discards.bind snmpToInt,
    out_discards := r.out_discards.bind snmpToInt,
    speed_mbps :=
      match r.high_speed with
      | some v => snmpToInt v
      | none => (r.if_speed.bind snmpToInt).map (fun n => Int.fdiv n 1000000) }

/-- _get_interface_metrics of snmpv3_poller.py, given the rows returned
by the ifDescr walk and the per-index GET responses.  The unguarded
int(parts[-1]) raises on a non-numeric index; the surrounding
try/except then returns the interfaces accumulated so far. -/
def get_interface_metrics :
    List (String × SnmpVal) → (Int → InterfaceRowEnv) → List InterfaceEntry
  | [], _ => []
  | (oid_str, descr) :: rest, row_env =>
    match pyIntOfString (lastDotComponent oid_str) with
    | none => []
    | some idx => mkInterfaceEntry idx descr (row_env idx) :: get_interface_metrics rest row_env

/-- ICMP ping result (dataclass ICMPResult; the float latency and loss
are modelled as integers, no claim depends on their fractional part). -/
structure ICMPResult where
  reachable : Bool
  latency_ms : Option Int
  packet_loss_percent : Int
deriving DecidableEq

/-- The memory dict returned by _get_memory_metrics (None when empty). -/
structure MemoryData where
  utilization : Option Int := none
  total : Option Int := none
  used : Option Int := none

/-- The disk dict returned by _get_disk_metrics (None when empty). -/
structure DiskData where
  disk_utilization : Option Int := none
  disk_total : Option Int := none
  disk_used : Option Int := none
  swap_utilization : Option Int := none
  swap_total : Option Int := none

/-- DeviceMetrics of apps/npm/src/npm/models/metrics.py, restricted to
the fields _poll_device and _store_metrics touch.  Optional floats are
modelled as optional integers; interface summary fields default to 0 and
is_available to False exactly as in the pydantic model. -/
structure DeviceMetrics where
  icmp_latency_ms : Option Int := none
  icmp_packet_loss_percent : Option Int := none
  icmp_reachable : Option Bool := none
  cpu_utilization : Option Int := none
  memory_utilization : Option Int := none
  memory_total_bytes : Option Int := none
  memory_used_bytes : Option Int := none
  uptime_seconds : Option Int := none
  disk_utilization : Option Int := none
  disk_total_bytes : Option Int := none
  disk_used_bytes : Option Int := none
  swap_utilization : Option Int := none
  swap_total_bytes : Option Int := none
  interface_count : Int := 0
  interface_up_count : Nat := 0
  interface_down_count : Nat := 0
  total_in_octets : Int := 0
  total_out_octets : Int := 0
  total_in_errors : Int := 0
  total_out_errors : Int := 0
  services_status : List (String × Bool) := []
  is_available : Bool := false

/-- _normalize_vendor of snmpv3_poller.py. -/
def normalize_vendor (vendor : String) : String :=
  let v := stripStr (lowerStr vendor)
  if containsStr v "cisco" then
    if containsStr v "nexus" || containsStr v "nxos" || containsStr v "nx-os" then
      "cisco_nxos"
    else "cisco"
  else if containsStr v "juniper" then "juniper"
  else if containsStr v "palo" || containsStr v "pan-os" then "paloalto"
  else if containsStr v "fortinet" || containsStr v "fortigate" then "fortinet"
  else if containsStr v "arista" then "arista"
  else if containsStr v "sophos" || containsStr v "sfos" then "sophos"
  else "generic"

/-- The environment of one _poll_device call: the device row flags, the
ping outcome, and the responses of every awaited SNMP exchange.  The
per-metric sub-collectors (_get_cpu_metrics, _get_memory_metrics,
_get_disk_metrics, _get_sophos_service_status), which issue their own
GETs and validate their own ranges, are modelled by their returned
values; the interface collection is embedded in full because the
interface summary counters derive from it. -/
structure PollEnv where
  poll_icmp : Bool
  icmp : ICMPResult
  poll_snmp : Bool
  username : Option String
  vendor : String
  uptime_response : Option SnmpVal
  cpu_result : Option Int
  memory_result : Option MemoryData
  if_number_response : Option SnmpVal
  disk_result : Option DiskData
  walk_responses : List WalkResponse
  row_env : Int → InterfaceRowEnv
  sophos_services : List (String × Bool)

/-- The ICMP section of _poll_device. -/
def poll_icmp_phase (env : PollEnv) (m : DeviceMetrics) : DeviceMetrics :=
  if env.poll_icmp then
    { m with icmp_reachable := some env.icmp.reachable,
             icmp_latency_ms := env.icmp.latency_ms,
             icmp_packet_loss_percent := some env.icmp.packet_loss_percent }
  else m

/-- The uptime section of _poll_device: sysUpTime is hundredths of a
second, converted with Python floor division by 100. -/
def poll_uptime_phase (env : PollEnv) (m : DeviceMetrics) : DeviceMetrics :=
  match env.uptime_response with
  | some v =>
    match snmpToInt v with
    | some n => { m with uptime_seconds := some (Int.fdiv n 100) }
    | none => m
  | none => m

/-- The CPU section of _poll_device. -/
def poll_cpu_phase (env : PollEnv) (m : DeviceMetrics) : DeviceMetrics :=
  match env.cpu_result with
  | some c => { m with cpu_utilization := some c }
  | none => m

/-- The memory section of _poll_device. -/
def poll_memory_phase (env : PollEnv) (m : DeviceMetrics) : DeviceMetrics :=
  match env.memory_result with
  | some md =>
    { m with memory_utilization := md.utilization,
             memory_total_bytes := md.total,
             memory_used_bytes := md.used }
  | none => m

/-- The interface-count section of _poll_device (the ifNumber scalar
GET). -/
def poll_ifnumber_phase (env : PollEnv) (m : DeviceMetrics) : DeviceMetrics :=
  match env.if_number_response with
  | some v =>
    match snmpToInt v with
    | some n => { m with interface_count := n }
    | none => m
  | none => m

/-- The disk section of _poll_device. -/
def poll_disk_phase (env : PollEnv) (m : DeviceMetrics) : DeviceMetrics :=
  match env.disk_result with
  | some dd =>
    { m with disk_utilization := dd.disk_utilization,
             disk_total_bytes := dd.disk_total,
             disk_used_bytes := dd.disk_used,
             swap_utilization := dd.swap_utilization,
             swap_total_bytes := dd.swap_total }
  | none => m

/-- The interface rows delivered to _poll_device: the ifDescr walk
capped at 200 rows, expanded by the per-row GETs. -/
def pollInterfaceData (env : PollEnv) : List InterfaceEntry :=
  get_interface_metrics (walk OID_IF_DESCR 200 env.walk_responses) env.row_env

/-- The interface-summary section of _poll_device: up and down counts by
oper status 1 and 2, and the octet and error totals. -/
def poll_interfaces_phase (env : PollEnv) (m : DeviceMetrics) : DeviceMetrics :=
  let ifaces := pollInterfaceData env
  if ifaces.isEmpty then m
  else
    { m with
      interface_up_count := ifaces.countP (fun i => i.oper_status = some 1),
      interface_down_count := ifaces.countP (fun i => i.oper_status = some 2),
      total_in_octets := (ifaces.map (fun i => i.in_octets.getD 0)).sum,
      total_out_octets := (ifaces.map (fun i => i.out_octets.getD 0)).sum,
      total_in_errors := (ifaces.map (fun i => i.in_errors.getD 0)).sum,
      total_out_errors := (ifaces.map (fun i => i.out_errors.getD 0)).sum }

/-- The Sophos service-status section of _poll_device. -/
def poll_services_phase (env : PollEnv) (m : DeviceMetrics) : DeviceMetrics :=
  if normalize_vendor env.vendor = "sophos" ∧ ¬ env.sophos_services.isEmpty then
    { m with services_status := env.sophos_services }
  else m

/-- The availability rule of _poll_device:
is_available = (icmp_reachable is True) or
(uptime_seconds is not None and uptime_seconds > 0). -/
def device_is_available (m : DeviceMetrics) : Bool :=
  (m.icmp_reachable = some true) ||
  (match m.uptime_seconds with
   | some u => 0 < u
   | none => false)

/-- _poll_device of snmpv3_poller.py: assemble one DeviceMetrics row in
source order (ICMP, then the SNMP sections guarded by poll_snmp and a
present username: uptime, CPU, memory, interface count, disk, interface
walk and summaries, Sophos services; finally availability). -/
def poll_device (env : PollEnv) : DeviceMetrics :=
  let m1 := poll_icmp_phase env ({} : DeviceMetrics)
  let m9 :=
    if env.poll_snmp ∧ env.username.isSome then
      poll_services_phase env (poll_interfaces_phase env (poll_disk_phase env
        (poll_ifnumber_phase env (poll_memory_phase env (poll_cpu_phase env
          (poll_uptime_phase env m1))))))
    else m1
  { m9 with is_available := device_is_available m9 }

/-! ## Credential crypto service
(apps/npm/src/npm/services/crypto.py)

The AES-256 block cipher and the scrypt key-derivation are treated as
library primitives (hashlib.scrypt and the AESGCM block cipher of the
cryptography package) and passed in as function parameters; the GCM mode
of operation, which determines the ciphertext layout, the 16-byte tag
and the round-trip behaviour, is implemented here. -/

/-- Byte sequences are lists of naturals below 256. -/
def ByteSeq := List Nat

/-- Hex digit characters, lower case (bytes.hex()). -/
def hexDigitChar (n : Nat) : Char :=
  "0123456789abcdef".data.getD n 'x'

/-- One byte to two lower-case hex characters (bytes.hex()). -/
def byteToHex (b : Nat) : List Char :=
  [hexDigitChar (b / 16), hexDigitChar (b % 16)]

/-- bytes.hex() of Python. -/
def bytesToHex (bs : List Nat) : String :=
  String.mk (bs.flatMap byteToHex)

/-- Value of one hex character, upper or lower case
(bytes.fromhex accepts both). -/
def hexCharVal (c : Char) : Option Nat :=
  goFind 0 "0123456789abcdef".data
where
  goFind : Nat → List Char → Option Nat
    | _, [] =>
      match goFindUp 0 "0123456789ABCDEF".data with
      | some n => some n
      | none => none
    | i, d :: rest => if c = d then some i else goFind (i + 1) rest
  goFindUp : Nat → List Char → Option Nat
    | _, [] => none
    | i, d :: rest => if c = d then some i else goFindUp (i + 1) rest

/-- bytes.fromhex of Python: pairs of hex digits; an odd length or a
non-hex character raises ValueError (None here). -/
def hexToBytes : List Char → Option (List Nat)
  | [] => some []
  | [_] => none
  | c1 :: c2 :: rest =>
    match hexCharVal c1, hexCharVal c2, hexToBytes rest with
    | some h, some l, some bs => some ((h * 16 + l) :: bs)
    | _, _, _ => none

/-- The GHASH reduction constant R of GCM (0xe1 followed by zeros). -/
def gcmR : Nat := 0xe1000000000000000000000000000000

/-- One step of the GF(2^128) multiplication loop: consume bit i of x
(most significant first), accumulating z and squaring-shifting v. -/
def gfMulStep (x : Nat) (i : Nat) (zv : Nat × Nat) : Nat × Nat :=
  let z := if x.testBit (127 - i) then zv.1 ^^^ zv.2 else zv.1
  let v := if zv.2.testBit 0 then (zv.2 >>> 1) ^^^ gcmR else zv.2 >>> 1
  (z, v)

/-- Multiplication in GF(2^128) with the GCM bit order. -/
def gfMul (x y : Nat) : Nat :=
  ((List.range 128).foldl (fun zv i => gfMulStep x i zv) (0, y)).1

/-- A 16-byte block (big-endian) to its 128-bit integer. -/
def blockToNat (bs : List Nat) : Nat :=
  bs.foldl (fun acc b => acc * 256 + b % 256) 0

/-- A 128-bit integer to its 16 bytes, big-endian. -/
def natToBlock (n : Nat) : List Nat :=
  (List.range 16).map fun i => (n >>> ((15 - i) * 8)) % 256

/-- Split a byte sequence into 16-byte chunks (the last may be short). -/
def chunks16Go : Nat → List Nat → List (List Nat)
  | _, [] => []
  | 0, _ :: _ => []
  | fuel + 1, b :: t => (b :: t).take 16 :: chunks16Go fuel ((b :: t).drop 16)

/-- Split a byte sequence into 16-byte chunks (the last may be short);
the fuel covers one step per byte. -/
def chunks16 (bs : List Nat) : List (List Nat) :=
  chunks16Go bs.length bs

/-- GHASH over the concatenation of the already padded 16-byte blocks. -/
def ghashBlocks (h : Nat) (blocks : List Nat) : Nat :=
  blocks.foldl (fun y b => gfMul (y ^^^ b) h) 0

/-- Zero-padding of the ciphertext to a whole number of blocks followed
by the 64-bit lengths block of GCM (no associated data is ever passed:
AESGCM.encrypt(iv, data, None)). -/
def gcmTagInput (ct : List Nat) : List Nat :=
  (chunks16 ct).map (fun c => blockToNat (c ++ List.replicate (16 - c.length) 0))
    ++ [ct.length * 8]

/-- The keystream of GCM counter mode: blocks E(J0 + 1), E(J0 + 2), ...
truncated to the data length.  With the 12-byte IV of this service,
J0 is IV || 0^31 || 1 and the 32-bit counter increment never wraps for
any credential-sized input. -/
def gcmKeystream (encBlock : Nat → Nat) (j0 : Nat) (len : Nat) : List Nat :=
  ((List.range ((len + 15) / 16)).flatMap fun i => natToBlock (encBlock (j0 + 1 + i))).take len

/-- AESGCM.encrypt of the cryptography library over an abstract block
cipher: returns ciphertext with the 16-byte tag appended. -/
def aesgcmEncrypt (encBlock : Nat → Nat) (iv pt : List Nat) : List Nat :=
  let h := encBlock 0
  let j0 := blockToNat iv * 2 ^ 32 + 1
  let ct := List.zipWith (fun a b => a ^^^ b) pt (gcmKeystream encBlock j0 pt.length)
  let tag := natToBlock (ghashBlocks h (gcmTagInput ct) ^^^ encBlock j0)
  ct ++ tag

/-- AESGCM.decrypt of the cryptography library over an abstract block
cipher: split off the 16-byte tag, recompute it over the ciphertext and
reject a mismatch (InvalidTag, None here), then reverse the counter-mode
XOR. -/
def aesgcmDecrypt (encBlock : Nat → Nat) (iv data : List Nat) : Option (List Nat) :=
  if data.length < 16 then none
  else
    let ct := data.take (data.length - 16)
    let tag := data.drop (data.length - 16)
    let h := encBlock 0
    let j0 := blockToNat iv * 2 ^ 32 + 1
    let expected := natToBlock (ghashBlocks h (gcmTagInput ct) ^^^ encBlock j0)
    if tag = expected then
      some (List.zipWith (fun a b => a ^^^ b) ct (gcmKeystream encBlock j0 ct.length))
    else none

/-- The scrypt call of CryptoService.__init__: a 32-byte key derived
from the configured secret with salt "salt", N=16384, r=8, p=1,
dklen=32.  scryptFn abstracts hashlib.scrypt (password, salt, n, r, p,
dklen). -/
def cryptoServiceKey
    (scryptFn : List Nat → List Nat → Nat → Nat → Nat → Nat → List Nat)
    (raw_key : List Nat) : List Nat :=
  scryptFn raw_key [115, 97, 108, 116] 16384 8 1 32

/-- CryptoService.encrypt of crypto.py: empty plaintext returns the
empty string; otherwise AES-256-GCM under the derived key with a
12-byte IV, the 16-byte auth tag split off the library output, and the
three fields hex-encoded and joined with colons
(iv_hex:authtag_hex:ciphertext_hex).  encBlock is the AES-256 block
cipher under the derived key; iv models os.urandom(12). -/
def cryptoEncrypt (encBlock : Nat → Nat) (iv pt : List Nat) : String :=
  if pt.isEmpty then ""
  else
    let ciphertext_with_tag := aesgcmEncrypt encBlock iv pt
    let ciphertext := ciphertext_with_tag.take (ciphertext_with_tag.length - 16)
    let auth_tag := ciphertext_with_tag.drop (ciphertext_with_tag.length - 16)
    bytesToHex iv ++ ":" ++ bytesToHex auth_tag ++ ":" ++ bytesToHex ciphertext

/-- Python str.split(":"): fields between colon occurrences, keeping
empty fields. -/
def splitColon : List Char → List (List Char)
  | [] => [[]]
  | c :: t =>
    match splitColon t with
    | [] => [[]]
    | f :: rest => if c = ':' then [] :: f :: rest else (c :: f) :: rest

/-- CryptoService.decrypt of crypto.py: empty input returns the empty
string (modelled as some []); otherwise split on colons, require
exactly three fields, hex-decode each, reassemble ciphertext plus tag
and call AESGCM.decrypt; every raised error is a ValueError to the
caller (None here). -/
def cryptoDecrypt (encBlock : Nat → Nat) (s : String) : Option (List Nat) :=
  if s = "" then some []
  else
    match splitColon s.data with
    | [ivHex, tagHex, ctHex] =>
      match hexToBytes ivHex, hexToBytes tagHex, hexToBytes ctHex with
      | some iv, some auth_tag, some encrypted =>
        aesgcmDecrypt encBlock iv (encrypted ++ auth_tag)
      | _, _, _ => none
    | _ => none

/-! ## Juniper STIG checker
(apps/stig/src/stig/collectors/juniper_stig_checker.py) -/

/-- Values stored in the parsed-configuration dicts: _parse_key_value
stores strings or True, and a few keys hold lists of lines. -/
inductive PyVal
  | str (s : String)
  | btrue
  | strList (l : List String)
deriving DecidableEq

/-- Python truthiness of a stored value. -/
def PyVal.truthy : PyVal → Bool
  | .str s => s ≠ ""
  | .btrue => true
  | .strList l => ¬ l.isEmpty

/-- Python str() of a stored value (repr is used for list elements). -/
def pyStrVal : PyVal → String
  | .str s => s
  | .btrue => "True"
  | .strList l =>
    "[" ++ pyJoin ", " (l.map (fun s => "\x27" ++ s ++ "\x27")) ++ "]"

/-- A parsed-configuration dict. -/
def PyDict := List (String × PyVal)
deriving instance DecidableEq for PyDict

/-- Python repr of a dict, as produced by str(some_dict) in the
evaluator (string values render in single quotes; quote escaping inside
values is not modelled, no claim depends on it). -/
def pyReprDict (d : PyDict) : String :=
  "\x7b" ++
    pyJoin ", " (d.map fun p =>
      "\x27" ++ p.1 ++ "\x27: " ++
        (match p.2 with
         | .str s => "\x27" ++ s ++ "\x27"
         | .btrue => "True"
         | .strList l => "[" ++ pyJoin ", " (l.map (fun s => "\x27" ++ s ++ "\x27")) ++ "]")) ++
  "\x7d"

/-- dict.setdefault(key, []).append(line) on a list-valued key.  When
the key already holds a non-list value Python would raise; no
configuration considered here reaches that state, and the model leaves
the dict unchanged there. -/
def dictAppendStr (d : PyDict) (k : String) (s : String) : PyDict :=
  match assocGet d k with
  | some (.strList l) => assocSet d k (.strList (l ++ [s]))
  | some _ => d
  | none => assocSet d k (.strList [s])

/-- Truthiness of dict.get(key): None and empty values are falsy. -/
def dictGetTruthy (d : PyDict) (k : String) : Bool :=
  match assocGet d k with
  | some v => v.truthy
  | none => false

/-- Zone data accumulated under security > zones > security-zone NAME. -/
structure ZoneCfg where
  screen : Option String := none
  interfaces : List String := []
  host_inbound_traffic : List String := []
deriving DecidableEq

/-- Firewall filter data accumulated under firewall > filter NAME. -/
structure FilterCfg where
  terms : List String := []
  logging_enabled : Bool := false
deriving DecidableEq

/-- Login section of the system data. -/
structure LoginCfg where
  banner : Option String := none
  retry_options : PyDict := []
  classes : PyDict := []
  users : PyDict := []
deriving DecidableEq

/-- Services section of the system data (the netconf, web-management,
telnet and ftp entries only ever hold the single pair enabled = True,
modelled as flags). -/
structure ServicesCfg where
  ssh : PyDict := []
  netconf : Bool := false
  web_management : Bool := false
  telnet : Bool := false
  ftp : Bool := false
deriving DecidableEq

/-- Syslog section of the system data. -/
structure SyslogCfg where
  hosts : List String := []
  source_address : Option String := none
  files : List String := []
deriving DecidableEq

/-- NTP section of the system data. -/
structure NtpCfg where
  servers : List String := []
  authentication : Bool := false
deriving DecidableEq

/-- Parsed Juniper security configuration
(dataclass JuniperSecurityConfig of juniper_stig_checker.py).  The
generic dict[str, Any] fields are association lists; fields whose keys
are statically known are typed records. -/
structure JuniperSecurityConfig where
  hostname : Option String := none
  version : Option String := none
  raw_content : String := ""
  login : LoginCfg := {}
  services : ServicesCfg := {}
  syslog : SyslogCfg := {}
  ntp : NtpCfg := {}
  authentication_order : List String := []
  tacplus_servers : List String := []
  radius_servers : List String := []
  security_log : PyDict := []
  security_screen : PyDict := []
  security_policies : PyDict := []
  security_zones : List (String × ZoneCfg) := []
  security_ike : PyDict := []
  security_ipsec : PyDict := []
  security_idp : PyDict := []
  security_alg : PyDict := []
  snmp : PyDict := []
  snmp_v3 : PyDict := []
  snmp_communities : List String := []
  interfaces : List (String × List String) := []
  firewall_filters : List (String × FilterCfg) := []
  class_of_service : PyDict := []
  routing_options : PyDict := []
  sections : List (String × String) := []
deriving DecidableEq

/-- Python line.rstrip(";"): drop every trailing semicolon. -/
def rstripSemi (s : String) : String :=
  String.mk ((s.data.reverse.dropWhile (fun c => c = ';')).reverse)

/-- Python s.replace("-", "_") for dict keys. -/
def dashToUnderscore (s : String) : String :=
  String.mk (s.data.map fun c => if c = '-' then '_' else c)

/-- Python line.split(None, 1): leading whitespace dropped, first token,
then the remainder with its leading whitespace dropped (None when the
remainder is empty). -/
def pySplit1 (s : String) : Option (String × Option String) :=
  let l := s.data.dropWhile isSpaceC
  let tok := l.takeWhile (fun c => ¬ isSpaceC c)
  if tok.isEmpty then none
  else
    let rest := (l.drop tok.length).dropWhile isSpaceC
    if rest.isEmpty then some (String.mk tok, none)
    else some (String.mk tok, some (String.mk rest))

/-- _parse_key_value of JuniperConfigParser: first token (dashes to
underscores) maps to the rest of the line (trailing semicolons and
whitespace stripped) or to True when the line is a single token. -/
def parse_key_value (line : String) (target : PyDict) : PyDict :=
  match pySplit1 line with
  | some (k, some v) =>
    assocSet target (dashToUnderscore k) (.str (stripStr (rstripSemi v)))
  | some (k, none) => assocSet target (dashToUnderscore k) .btrue
  | none => target

/-- re.search of LITERAL + \\s+ + (\\S+): scan for an occurrence of the
literal followed by whitespace and a token; capture the token. -/
def searchKeyArg (lit : String) (s : String) : Option String :=
  go s.data
where
  go : List Char → Option String
    | [] => none
    | c :: t =>
      match tryHere (c :: t) with
      | some tok => some tok
      | none => go t
  tryHere (l : List Char) : Option String :=
    if lit.data.isPrefixOf l then
      let r := l.drop lit.data.length
      let ws := r.takeWhile isSpaceC
      if ws.isEmpty then none
      else
        let tok := (r.drop ws.length).takeWhile (fun c => ¬ isSpaceC c)
        if tok.isEmpty then none else some (String.mk tok)
    else none

/-- re.search of LITERAL directly followed by (\\S+), used for the path
pattern "interfaces > (\\S+)" whose separator is a literal space. -/
def searchLitCapture (lit : String) (s : String) : Option String :=
  go s.data
where
  go : List Char → Option String
    | [] => none
    | c :: t =>
      match tryHere (c :: t) with
      | some tok => some tok
      | none => go t
  tryHere (l : List Char) : Option String :=
    if lit.data.isPrefixOf l then
      let tok := (l.drop lit.data.length).takeWhile (fun c => ¬ isSpaceC c)
      if tok.isEmpty then none else some (String.mk tok)
    else none

/-- re.search of LITERAL + \\s+ + "([^"]+)": the quoted capture of the
login message banner. -/
def searchQuotedArg (lit : String) (s : String) : Option String :=
  go s.data
where
  go : List Char → Option String
    | [] => none
    | c :: t =>
      match tryHere (c :: t) with
      | some tok => some tok
      | none => go t
  tryHere (l : List Char) : Option String :=
    if lit.data.isPrefixOf l then
      let r := l.drop lit.data.length
      let ws := r.takeWhile isSpaceC
      if ws.isEmpty then none
      else
        match r.drop ws.length with
        | '"' :: body =>
          let q := body.takeWhile (fun c => c ≠ '"')
          if q.isEmpty then none
          else
            match body.drop q.length with
            | '"' :: _ => some (String.mk q)
            | _ => none
        | _ => none
    else none

/-- re.search of authentication-order\\s+\\[(.*?)\\]: lazy capture up to
the first closing bracket (a regex dot does not match a newline, but a
configuration line never contains one). -/
def searchBracketArg (lit : String) (s : String) : Option String :=
  go s.data
where
  go : List Char → Option String
    | [] => none
    | c :: t =>
      match tryHere (c :: t) with
      | some tok => some tok
      | none => go t
  tryHere (l : List Char) : Option String :=
    if lit.data.isPrefixOf l then
      let r := l.drop lit.data.length
      let ws := r.takeWhile isSpaceC
      if ws.isEmpty then none
      else
        match r.drop ws.length with
        | '[' :: body =>
          let q := body.takeWhile (fun c => c ≠ ']')
          match body.drop q.length with
          | ']' :: _ => some (String.mk q)
          | _ => none
        | _ => none
    else none

/-- re.search of community\\s+"?([^"\\s]+)"?: an optional opening quote,
then a maximal run free of quotes and whitespace. -/
def searchCommunityArg (s : String) : Option String :=
  go s.data
where
  go : List Char → Option String
    | [] => none
    | c :: t =>
      match tryHere (c :: t) with
      | some tok => some tok
      | none => go t
  tryHere (l : List Char) : Option String :=
    if "community".data.isPrefixOf l then
      let r := l.drop "community".length
      let ws := r.takeWhile isSpaceC
      if ws.isEmpty then none
      else
        let r2 := r.drop ws.length
        let r3 := match r2 with
          | '"' :: t => t
          | _ => r2
        let tok := r3.takeWhile (fun c => c ≠ '"' ∧ ¬ isSpaceC c)
        if tok.isEmpty then none else some (String.mk tok)
    else none

/-- re.match of \\d+\\.\\d+\\.\\d+\\.\\d+ against a token (an anchored
prefix match, extra trailing characters are accepted). -/
def ipPrefixTok (s : String) : Bool :=
  match s.data.span Char.isDigit with
  | (d1, '.' :: r1) =>
    match r1.span Char.isDigit with
    | (d2, '.' :: r2) =>
      match r2.span Char.isDigit with
      | (d3, '.' :: r3) =>
        let d4 := r3.takeWhile Char.isDigit
        ¬ d1.isEmpty && ¬ d2.isEmpty && ¬ d3.isEmpty && ¬ d4.isEmpty
      | _ => false
    | _ => false
  | _ => false

/-- Python line.split()[-1] on a non-empty split (the last whitespace
token). -/
def lastToken (s : String) : String :=
  (pySplitWs s).getLastD ""

/-- Python line.split()[0] if line.split() else "". -/
def firstToken (s : String) : String :=
  (pySplitWs s).headD ""

/-- _parse_system of JuniperConfigParser. -/
def parse_system (line path : String) (cfg : JuniperSecurityConfig) :
    JuniperSecurityConfig :=
  let cfg :=
    if containsStr line "host-name" then
      match searchKeyArg "host-name" line with
      | some h => { cfg with hostname := some h }
      | none => cfg
    else cfg
  let cfg :=
    if pyStartsWith line "version" then { cfg with version := some (lastToken line) }
    else cfg
  let cfg :=
    if containsStr path "login" then
      if containsStr path "retry-options" then
        { cfg with login :=
            { cfg.login with retry_options := parse_key_value line cfg.login.retry_options } }
      else if containsStr line "message" then
        match searchQuotedArg "message" line with
        | some b => { cfg with login := { cfg.login with banner := some b } }
        | none => cfg
      else if containsStr path "class" then
        { cfg with login := { cfg.login with classes := parse_key_value line cfg.login.classes } }
      else if containsStr path "user" then
        { cfg with login := { cfg.login with users := parse_key_value line cfg.login.users } }
      else cfg
    else cfg
  let cfg :=
    if containsStr path "services" then
      if containsStr path "ssh" then
        let ssh := parse_key_value line cfg.services.ssh
        let ssh :=
          if containsStr line "root-login" then
            assocSet ssh "root_login"
              (.str (if containsStr line "deny" then "deny" else "allow"))
          else ssh
        let ssh :=
          if containsStr line "protocol-version" then
            assocSet ssh "protocol_version" (.str (lastToken line))
          else ssh
        let ssh :=
          if containsStr line "ciphers" then
            assocSet ssh "ciphers" (.str (lastToken line))
          else ssh
        let ssh :=
          if containsStr line "macs" then
            assocSet ssh "macs" (.str (lastToken line))
          else ssh
        let ssh :=
          if containsStr line "key-exchange" then
            assocSet ssh "key_exchange" (.str (lastToken line))
          else ssh
        { cfg with services := { cfg.services with ssh := ssh } }
      else if containsStr path "netconf" then
        { cfg with services := { cfg.services with netconf := true } }
      else if containsStr path "web-management" then
        { cfg with services := { cfg.services with web_management := true } }
      else if containsStr line "telnet" then
        { cfg with services := { cfg.services with telnet := true } }
      else if containsStr line "ftp" then
        { cfg with services := { cfg.services with ftp := true } }
      else cfg
    else cfg
  let cfg :=
    if containsStr path "syslog" then
      let cfg :=
        if containsStr line "host" then
          match searchKeyArg "host" line with
          | some h =>
            { cfg with syslog := { cfg.syslog with hosts := cfg.syslog.hosts ++ [h] } }
          | none => cfg
        else cfg
      let cfg :=
        if containsStr line "source-address" then
          { cfg with syslog := { cfg.syslog with source_address := some (lastToken line) } }
        else cfg
      if containsStr path "file" then
        { cfg with syslog := { cfg.syslog with files := cfg.syslog.files ++ [line] } }
      else cfg
    else cfg
  let cfg :=
    if containsStr path "ntp" then
      let cfg :=
        if containsStr line "server" then
          match searchKeyArg "server" line with
          | some h =>
            { cfg with ntp := { cfg.ntp with servers := cfg.ntp.servers ++ [h] } }
          | none => cfg
        else cfg
      if containsStr line "authentication-key" then
        { cfg with ntp := { cfg.ntp with authentication := true } }
      else cfg
    else cfg
  let cfg :=
    if containsStr line "authentication-order" then
      match searchBracketArg "authentication-order" line with
      | some grp => { cfg with authentication_order := pySplitWs grp }
      | none => cfg
    else cfg
  let cfg :=
    if containsStr path "tacplus-server" then
      if ipPrefixTok (firstToken line) then
        { cfg with tacplus_servers := cfg.tacplus_servers ++ [firstToken line] }
      else cfg
    else cfg
  if containsStr path "radius-server" then
    if ipPrefixTok (firstToken line) then
      { cfg with radius_servers := cfg.radius_servers ++ [firstToken line] }
    else cfg
  else cfg

/-- Update one zone of the security_zones map, creating it when absent
(dict setdefault). -/
def zoneUpdate (zones : List (String × ZoneCfg)) (name : String)
    (f : ZoneCfg → ZoneCfg) : List (String × ZoneCfg) :=
  if zones.any (fun p => p.1 = name) then
    zones.map fun p => if p.1 = name then (name, f p.2) else p
  else zones ++ [(name, f {})]

/-- Update one filter of the firewall_filters map, creating it when
absent (dict setdefault). -/
def filterUpdate (fs : List (String × FilterCfg)) (name : String)
    (f : FilterCfg → FilterCfg) : List (String × FilterCfg) :=
  if fs.any (fun p => p.1 = name) then
    fs.map fun p => if p.1 = name then (name, f p.2) else p
  else fs ++ [(name, f {})]

/-- _parse_security of JuniperConfigParser.  The zone name is captured
from the (lower-cased) section path. -/
def parse_security (line path : String) (cfg : JuniperSecurityConfig) :
    JuniperSecurityConfig :=
  let cfg :=
    if containsStr path "security > log" then
      let d := parse_key_value line cfg.security_log
      let d := if containsStr path "stream" then dictAppendStr d "streams" line else d
      { cfg with security_log := d }
    else cfg
  let cfg :=
    if containsStr path "screen" then
      let d := parse_key_value line cfg.security_screen
      let d := if containsStr path "ids-option" then assocSet d "ids_enabled" .btrue else d
      { cfg with security_screen := d }
    else cfg
  let cfg :=
    if containsStr path "policies" then
      let d :=
        if containsStr path "from-zone" then parse_key_value line cfg.security_policies
        else cfg.security_policies
      let d :=
        if containsStr path "default-policy" then
          if containsStr line "deny-all" then assocSet d "default_deny" .btrue
          else if containsStr line "permit-all" then assocSet d "default_permit" .btrue
          else d
        else d
      let d :=
        if containsStr line "then log" || containsStr line "then permit" ||
           containsStr line "then deny" then
          dictAppendStr d "actions" line
        else d
      { cfg with security_policies := d }
    else cfg
  let cfg :=
    if containsStr path "zones" then
      if containsStr path "security-zone" then
        match searchKeyArg "security-zone" path with
        | some zone_name =>
          let f : ZoneCfg → ZoneCfg := fun z =>
            let z := if containsStr line "screen" then { z with screen := some (lastToken line) } else z
            let z :=
              if containsStr path "interfaces" then
                { z with interfaces := z.interfaces ++ [rstripSemi line] }
              else z
            if containsStr path "host-inbound-traffic" then
              { z with host_inbound_traffic := z.host_inbound_traffic ++ [line] }
            else z
          { cfg with security_zones := zoneUpdate cfg.security_zones zone_name f }
        | none => cfg
      else cfg
    else cfg
  let cfg :=
    if containsStr path "ike" then
      let d := parse_key_value line cfg.security_ike
      let d := if containsStr path "proposal" then dictAppendStr d "proposals" line else d
      let d := if containsStr path "policy" then dictAppendStr d "policies" line else d
      let d := if containsStr path "gateway" then dictAppendStr d "gateways" line else d
      { cfg with security_ike := d }
    else cfg
  let cfg :=
    if containsStr path "ipsec" then
      let d := parse_key_value line cfg.security_ipsec
      let d := if containsStr path "proposal" then dictAppendStr d "proposals" line else d
      let d := if containsStr path "policy" then dictAppendStr d "policies" line else d
      let d := if containsStr path "vpn" then dictAppendStr d "vpns" line else d
      { cfg with security_ipsec := d }
    else cfg
  let cfg :=
    if containsStr path "idp" then
      let d := parse_key_value line cfg.security_idp
      let d :=
        if containsStr line "active-policy" then
          assocSet d "active_policy" (.str (lastToken line))
        else d
      let d :=
        if containsStr path "security-package" then assocSet d "security_package" .btrue
        else d
      { cfg with security_idp := d }
    else cfg
  if containsStr path "alg" then
    { cfg with security_alg := parse_key_value line cfg.security_alg }
  else cfg

/-- _parse_snmp of JuniperConfigParser. -/
def parse_snmp (line path : String) (cfg : JuniperSecurityConfig) :
    JuniperSecurityConfig :=
  let cfg :=
    if containsStr line "community" then
      match searchCommunityArg line with
      | some c => { cfg with snmp_communities := cfg.snmp_communities ++ [c] }
      | none => cfg
    else cfg
  let cfg :=
    if containsStr path "v3" then
      let d := parse_key_value line cfg.snmp_v3
      let d := if containsStr path "usm" then assocSet d "usm_configured" .btrue else d
      let d :=
        if containsStr line "authentication-sha" || containsStr line "authentication-sha256" then
          assocSet d "auth_sha" .btrue
        else d
      let d :=
        if containsStr line "authentication-md5" then assocSet d "auth_md5" .btrue else d
      let d :=
        if containsStr line "privacy-aes" || containsStr line "privacy-aes256" then
          assocSet d "privacy_aes" .btrue
        else d
      let d :=
        if containsStr line "privacy-des" then assocSet d "privacy_des" .btrue else d
      { cfg with snmp_v3 := d }
    else cfg
  { cfg with snmp := parse_key_value line cfg.snmp }

/-- _parse_interface of JuniperConfigParser. -/
def parse_interface (line path : String) (cfg : JuniperSecurityConfig) :
    JuniperSecurityConfig :=
  match searchLitCapture "interfaces > " path with
  | some iface_name =>
    if cfg.interfaces.any (fun p => p.1 = iface_name) then
      { cfg with interfaces :=
          cfg.interfaces.map fun p =>
            if p.1 = iface_name then (iface_name, p.2 ++ [line]) else p }
    else { cfg with interfaces := cfg.interfaces ++ [(iface_name, [line])] }
  | none => cfg

/-- _parse_firewall of JuniperConfigParser. -/
def parse_firewall (line path : String) (cfg : JuniperSecurityConfig) :
    JuniperSecurityConfig :=
  if containsStr path "filter" then
    match searchKeyArg "filter" path with
    | some filter_name =>
      let f : FilterCfg → FilterCfg := fun fc =>
        if containsStr path "term" then
          let fc := { fc with terms := fc.terms ++ [line] }
          if containsStr line "log" || containsStr line "syslog" then
            { fc with logging_enabled := true }
          else fc
        else fc
      { cfg with firewall_filters := filterUpdate cfg.firewall_filters filter_name f }
    | none => cfg
  else cfg

/-- _parse_routing of JuniperConfigParser. -/
def parse_routing (line : String) (cfg : JuniperSecurityConfig) :
    JuniperSecurityConfig :=
  { cfg with routing_options := parse_key_value line cfg.routing_options }

/-- _parse_line of JuniperConfigParser: strip trailing semicolons and
whitespace, then run every section accumulator whose root occurs in the
(lower-cased) path; the original line decides the startswith("snmp")
alternative. -/
def parse_line (line path : String) (cfg : JuniperSecurityConfig) :
    JuniperSecurityConfig :=
  let clean_line := stripStr (rstripSemi line)
  let cfg := if containsStr path "system" then parse_system clean_line path cfg else cfg
  let cfg := if containsStr path "security" then parse_security clean_line path cfg else cfg
  let cfg :=
    if containsStr path "snmp" || pyStartsWith line "snmp" then parse_snmp clean_line path cfg
    else cfg
  let cfg := if containsStr path "interfaces" then parse_interface clean_line path cfg else cfg
  let cfg := if containsStr path "firewall" then parse_firewall clean_line path cfg else cfg
  if containsStr path "routing-options" then parse_routing clean_line cfg else cfg

/-- The section path join " > ".join(section_stack). -/
def joinPath (stack : List String) : String := pyJoin " > " stack

/-- One step of the JuniperConfigParser.parse line loop, acting on the
section stack, the per-section line map and the configuration. -/
def parseStep (st : List String × List (String × List String) × JuniperSecurityConfig)
    (line : String) : List String × List (String × List String) × JuniperSecurityConfig :=
  let (stack, secLines, cfg) := st
  let stripped := stripStr line
  if stripped = "" || pyStartsWith stripped "#" then (stack, secLines, cfg)
  else if stripped.data.getLast? = some '\x7b' then
    let section_name := stripStr (String.mk stripped.data.dropLast)
    let stack' := stack ++ [section_name]
    let path := joinPath stack'
    let secLines' :=
      if secLines.any (fun p => p.1 = path) then secLines else secLines ++ [(path, [])]
    (stack', secLines', cfg)
  else if stripped = String.mk ['\x7d'] then
    if stack.isEmpty then (stack, secLines, cfg)
    else
      let path := joinPath stack
      let cfg' :=
        match assocGet secLines path with
        | some ls => { cfg with sections := assocSet cfg.sections path (pyJoin "\n" ls) }
        | none => cfg
      (stack.dropLast, secLines, cfg')
  else
    let secLines' :=
      if stack.isEmpty then secLines
      else
        let path := joinPath stack
        if secLines.any (fun p => p.1 = path) then
          secLines.map fun p => if p.1 = path then (path, p.2 ++ [stripped]) else p
        else secLines ++ [(path, [stripped])]
    let full_path := lowerStr (joinPath stack)
    (stack, secLines', parse_line stripped full_path cfg)

/-- JuniperConfigParser.parse: split into lines and fold the line loop
over a fresh configuration carrying the raw content. -/
def parseJuniperConfig (content : String) : JuniperSecurityConfig :=
  ((((pySplitCharP (fun c => c = '\n') content.data).map String.mk).foldl parseStep
    ([], [], { raw_content := content }))).2.2

/-- Modelled from the spec: the CheckStatus enum lives in
stig.models.audit, which is not under src/; the spec fixes the status
set as pass, fail, not_applicable, not_reviewed, error. -/
inductive CheckStatus
  | pass
  | fail
  | not_applicable
  | not_reviewed
  | error
deriving DecidableEq, Repr

/-- Modelled from the spec: the STIGSeverity enum of stig.models
(high, medium, low). -/
inductive STIGSeverity
  | high
  | medium
  | low
deriving DecidableEq, Repr

/-- Modelled from the spec: AuditResultCreate carries the job id, rule
id, severity, status and the human-readable finding details. -/
structure AuditResultCreate where
  job_id : String
  rule_id : String
  title : String
  severity : STIGSeverity
  status : CheckStatus
  finding_details : String
deriving DecidableEq, Repr

/-- Categories of Juniper STIG checks (enum JuniperSTIGCategory). -/
inductive JuniperSTIGCategory
  | alg
  | ndm
  | vpn
  | idps
deriving DecidableEq, Repr

/-- re.search of LIT1 + \\s+ + LIT2 with re.IGNORECASE
(the protocol-version v2 probe of _check_ssh). -/
def searchLitWsLitCI (a b s : String) : Bool :=
  go (lowerList s.data)
where
  go : List Char → Bool
    | [] => tryHere []
    | c :: t => tryHere (c :: t) || go t
  tryHere (l : List Char) : Bool :=
    if (lowerList a.data).isPrefixOf l then
      let r := l.drop a.length
      let ws := r.takeWhile isSpaceC
      ¬ ws.isEmpty && (lowerList b.data).isPrefixOf (r.drop ws.length)
    else false

/-- re.search of idle-timeout\\s+(\\d+) of _check_session_timeout:
capture the digits as a number. -/
def searchKeyNum (lit : String) (s : String) : Option Nat :=
  go s.data
where
  go : List Char → Option Nat
    | [] => none
    | c :: t =>
      match tryHere (c :: t) with
      | some n => some n
      | none => go t
  tryHere (l : List Char) : Option Nat :=
    if lit.data.isPrefixOf l then
      let r := l.drop lit.data.length
      let ws := r.takeWhile isSpaceC
      if ws.isEmpty then none
      else
        let ds := (r.drop ws.length).takeWhile Char.isDigit
        if ds.isEmpty then none else some (digitsToNat ds)
    else none

/-- The protocol-version block of _check_ssh: the findings it appends. -/
def check_ssh_proto_step (ssh : PyDict) (raw tl : String) : List String :=
  if containsStr tl "v2" || containsStr tl "version 2" || containsStr tl "sshv2" then
    let proto := assocGet ssh "protocol_version"
    let protoStr := match proto with | some v => pyStrVal v | none => ""
    let protoTruthy := match proto with | some v => v.truthy | none => false
    if containsStrCI protoStr "v2" || containsStr protoStr "2" then
      ["SSH Protocol Version: v2 ✓"]
    else
      let e1 :=
        "SSH Protocol Version: " ++ (if protoTruthy then protoStr else "not explicitly set")
      if searchLitWsLitCI "protocol-version" "v2" raw then
        [e1, "protocol-version v2 found in config ✓"]
      else if ¬ containsStr raw "protocol-version" then
        [e1, "Note: JunOS defaults to SSHv2"]
      else [e1]
  else []

/-- The root-login block of _check_ssh: the findings it appends and the
failed flag it sets. -/
def check_ssh_root_step (ssh : PyDict) (raw tl : String) : List String × Bool :=
  if containsStr tl "root" then
    if assocGet ssh "root_login" = some (.str "deny") then
      (["SSH root-login: deny ✓"], false)
    else if containsStr raw "root-login deny" then
      (["SSH root-login deny found in config ✓"], false)
    else
      (["SSH root-login is not set to deny"], true)
  else ([], false)

/-- The FIPS-ciphers block of _check_ssh: the findings it appends. -/
def check_ssh_fips_step (ssh : PyDict) (raw tl : String) : List String :=
  if containsStr tl "fips" || containsStr tl "cipher" then
    let ciphers := match assocGet ssh "ciphers" with | some v => pyStrVal v | none => ""
    let macs := match assocGet ssh "macs" with | some v => pyStrVal v | none => ""
    let f1 :=
      if containsStrCI ciphers "aes256" || containsStrCI raw "aes256" then
        ["SSH ciphers include AES256 ✓"]
      else []
    if containsStrCI macs "sha2" || containsStrCI raw "sha2" then
      f1 ++ ["SSH MACs include SHA2 ✓"]
    else f1
  else []

/-- _check_ssh of JuniperSTIGEvaluator, composed from its three blocks
in source order. -/
def check_ssh (cfg : JuniperSecurityConfig) (check_text fix_text title : String) :
    CheckStatus × String :=
  let ssh0 := cfg.services.ssh
  let tl := lowerStr title
  if ssh0.isEmpty ∧
     ¬ (containsStr cfg.raw_content "services" ∧ containsStr cfg.raw_content "ssh") then
    (.fail, "SSH service not configured")
  else
    let ssh := if ssh0.isEmpty then [("enabled", PyVal.btrue)] else ssh0
    let rootStep := check_ssh_root_step ssh cfg.raw_content tl
    let findings :=
      check_ssh_proto_step ssh cfg.raw_content tl ++ rootStep.1 ++
        check_ssh_fips_step ssh cfg.raw_content tl
    if rootStep.2 then (.fail, pyJoin "\n" findings)
    else
      (.pass, if findings.isEmpty then "SSH configuration appears compliant"
              else pyJoin "\n" findings)

/-- The SNMPv3 block of _check_snmp: the findings it appends and the
failed flag it sets. -/
def check_snmp_v3_step (cfg : JuniperSecurityConfig) (tl : String) : List String × Bool :=
  if containsStr tl "v3" || containsStr tl "snmpv3" then
    if dictGetTruthy cfg.snmp_v3 "usm_configured" then
      let findings := ["SNMPv3 USM is configured ✓"]
      let authStep : List String × Bool :=
        if dictGetTruthy cfg.snmp_v3 "auth_sha" then
          (findings ++ ["SNMPv3 uses SHA authentication ✓"], false)
        else if dictGetTruthy cfg.snmp_v3 "auth_md5" then
          (findings ++ ["SNMPv3 uses MD5 (should use SHA)"], true)
        else (findings, false)
      if dictGetTruthy cfg.snmp_v3 "privacy_aes" then
        (authStep.1 ++ ["SNMPv3 uses AES privacy ✓"], authStep.2)
      else if dictGetTruthy cfg.snmp_v3 "privacy_des" then
        (authStep.1 ++ ["SNMPv3 uses DES (should use AES)"], true)
      else authStep
    else if containsStrCI cfg.raw_content "snmp v3" then
      (["SNMPv3 configuration found in config"], false)
    else
      (["SNMPv3 not configured"], true)
  else ([], false)

/-- The community-strings block of _check_snmp applied to the SNMPv3
block result. -/
def check_snmp_comm_step (cfg : JuniperSecurityConfig) (tl : String)
    (step1 : List String × Bool) : List String × Bool :=
  if ¬ cfg.snmp_communities.isEmpty then
    (step1.1 ++ ["WARNING: SNMP community strings found (v1/v2c): " ++
      toString cfg.snmp_communities.length ++ " communities"],
     step1.2 || containsStr tl "v3")
  else step1

/-- _check_snmp of JuniperSTIGEvaluator. -/
def check_snmp (cfg : JuniperSecurityConfig) (check_text fix_text title : String) :
    CheckStatus × String :=
  let tl := lowerStr title
  let step2 := check_snmp_comm_step cfg tl (check_snmp_v3_step cfg tl)
  if step2.2 then (.fail, pyJoin "\n" step2.1)
  else
    (.pass, if step2.1.isEmpty then "SNMP configuration not detected (may be disabled)"
            else pyJoin "\n" step2.1)

/-- _check_ntp of JuniperSTIGEvaluator. -/
def check_ntp (cfg : JuniperSecurityConfig) (check_text fix_text title : String) :
    CheckStatus × String :=
  let tl := lowerStr title
  if ¬ cfg.ntp.servers.isEmpty then
    let findings := ["NTP servers configured: " ++ pyJoin ", " cfg.ntp.servers ++ " ✓"]
    let findings := ntpAuthStep cfg tl findings
    (.pass, pyJoin "\n" findings)
  else if containsStrCI cfg.raw_content "ntp" ∧ containsStrCI cfg.raw_content "server" then
    let findings := ["NTP server configuration found in config ✓"]
    let findings := ntpAuthStep cfg tl findings
    (.pass, pyJoin "\n" findings)
  else (.fail, "No NTP servers configured")
where
  /-- The NTP-authentication subclause appended when the title mentions
  authentication. -/
  ntpAuthStep (cfg : JuniperSecurityConfig) (tl : String) (findings : List String) :
      List String :=
    if containsStr tl "authenticat" then
      if cfg.ntp.authentication then findings ++ ["NTP authentication is configured ✓"]
      else if containsStr cfg.raw_content "authentication-key" then
        findings ++ ["NTP authentication-key found in config ✓"]
      else findings ++ ["NTP authentication not explicitly configured"]
    else findings

/-- The remote-syslog block of _check_logging: its findings and the
failed flag. -/
def check_logging_syslog_step (cfg : JuniperSecurityConfig) (tl : String) :
    List String × Bool :=
  if ¬ cfg.syslog.hosts.isEmpty then
    (["Syslog servers configured: " ++ pyJoin ", " cfg.syslog.hosts ++ " ✓"], false)
  else if containsStrCI cfg.raw_content "syslog" ∧ containsStrCI cfg.raw_content "host" then
    (["Syslog host configuration found in config ✓"], false)
  else
    (["No remote syslog servers configured"],
     containsStr tl "centralized" || containsStr tl "remote")

/-- The security-logging block of _check_logging: the findings it
appends. -/
def check_logging_seclog_step (cfg : JuniperSecurityConfig) : List String :=
  if ¬ cfg.security_log.isEmpty then
    let f := ["Security logging is configured ✓"]
    match assocGet cfg.security_log "streams" with
    | some (.strList l) =>
      if ¬ l.isEmpty then
        f ++ ["Security log streams configured: " ++ toString l.length ++ " ✓"]
      else f
    | some v => if v.truthy then f ++ ["Security log streams configured: 0 ✓"] else f
    | none => f
  else if containsStrCI cfg.raw_content "security log" then
    ["Security log configuration found in config ✓"]
  else []

/-- The policy-logging block of _check_logging: the findings it
appends. -/
def check_logging_policy_step (cfg : JuniperSecurityConfig) (tl : String) : List String :=
  if containsStr tl "policy" || containsStr tl "firewall" then
    let f :=
      match assocGet cfg.security_policies "actions" with
      | some (.strList actions) =>
        if ¬ actions.isEmpty then
          let log_actions := actions.filter (fun a => containsStrCI a "log")
          if ¬ log_actions.isEmpty then
            ["Policy logging actions found: " ++ toString log_actions.length ++ " ✓"]
          else []
        else []
      | _ => []
    if containsStr cfg.raw_content "then log" then
      f ++ ["Policy \x27then log\x27 statements found in config ✓"]
    else f
  else []

/-- _check_logging of JuniperSTIGEvaluator, composed from its three
blocks in source order. -/
def check_logging (cfg : JuniperSecurityConfig) (check_text fix_text title : String) :
    CheckStatus × String :=
  let tl := lowerStr title
  let step1 := check_logging_syslog_step cfg tl
  let findings :=
    step1.1 ++ check_logging_seclog_step cfg ++ check_logging_policy_step cfg tl
  if step1.2 then (.fail, pyJoin "\n" findings)
  else
    (.pass, if findings.isEmpty then "Logging configuration review needed"
            else pyJoin "\n" findings)

/-- _check_authentication of JuniperSTIGEvaluator. -/
def check_authentication (cfg : JuniperSecurityConfig) (check_text fix_text title : String) :
    CheckStatus × String :=
  let findings : List String := []
  let findings :=
    if ¬ cfg.authentication_order.isEmpty then
      findings ++ ["Authentication order: " ++ pyJoin " " cfg.authentication_order ++ " ✓"]
    else if containsStr cfg.raw_content "authentication-order" then
      findings ++ ["Authentication order configured ✓"]
    else findings
  let findings :=
    if ¬ cfg.tacplus_servers.isEmpty then
      findings ++ ["TACACS+ servers: " ++ pyJoin ", " cfg.tacplus_servers ++ " ✓"]
    else if containsStrCI cfg.raw_content "tacplus" then
      findings ++ ["TACACS+ configuration found ✓"]
    else findings
  let findings :=
    if ¬ cfg.radius_servers.isEmpty then
      findings ++ ["RADIUS servers: " ++ pyJoin ", " cfg.radius_servers ++ " ✓"]
    else if containsStrCI cfg.raw_content "radius" then
      findings ++ ["RADIUS configuration found ✓"]
    else findings
  if findings.isEmpty then (.fail, "No centralized authentication configured")
  else (.pass, pyJoin "\n" findings)

/-- The fixed screen-protection table of _check_security_screen, in
source (dict insertion) order. -/
def screenProtections : List (String × String) :=
  [ ("syn-flood", "SYN flood protection"),
    ("ping-death", "Ping of death protection"),
    ("land", "LAND attack protection"),
    ("tear-drop", "Teardrop protection"),
    ("spoofing", "IP spoofing protection"),
    ("source-route", "Source route protection"),
    ("winnuke", "WinNuke protection") ]

/-- _check_security_screen of JuniperSTIGEvaluator. -/
def check_security_screen (cfg : JuniperSecurityConfig) (check_text fix_text title : String) :
    CheckStatus × String :=
  let raw := lowerStr cfg.raw_content
  let findings : List String := []
  let findings :=
    if dictGetTruthy cfg.security_screen "ids_enabled" then
      findings ++ ["Security screen IDS option configured ✓"]
    else findings
  let findings :=
    findings ++ (screenProtections.filterMap fun p =>
      if containsStr raw p.1 then some (p.2 ++ " ✓") else none)
  let findings :=
    findings ++ (cfg.security_zones.filterMap fun z =>
      match z.2.screen with
      | some sc =>
        if sc ≠ "" then
          some ("Screen applied to zone \x27" ++ z.1 ++ "\x27: " ++ sc ++ " ✓")
        else none
      | none => none)
  if findings.isEmpty then
    if containsStr raw "screen" ∧ containsStr raw "ids-option" then
      (.pass, pyJoin "\n" ["Security screen configuration found in config"])
    else (.fail, "No security screens configured")
  else (.pass, pyJoin "\n" findings)

/-- _check_security_policy of JuniperSTIGEvaluator. -/
def check_security_policy (cfg : JuniperSecurityConfig) (check_text fix_text title : String) :
    CheckStatus × String :=
  let step1 : List String × Bool :=
    if dictGetTruthy cfg.security_policies "default_deny" then
      (["Default policy: deny-all ✓"], false)
    else if containsStr cfg.raw_content "default-policy" ∧
            containsStr cfg.raw_content "deny-all" then
      (["Default deny-all policy found ✓"], false)
    else if containsStr cfg.raw_content "default-policy" ∧
            containsStr cfg.raw_content "permit-all" then
      (["WARNING: Default permit-all policy found"], true)
    else ([], false)
  if step1.2 then (.fail, pyJoin "\n" step1.1)
  else
    let findings :=
      if ¬ cfg.security_zones.isEmpty then
        step1.1 ++ ["Security zones configured: " ++
          pyJoin ", " (cfg.security_zones.map Prod.fst) ++ " ✓"]
      else if containsStr cfg.raw_content "security-zone" then
        step1.1 ++ ["Security zones found in config ✓"]
      else step1.1
    let findings :=
      if containsStr cfg.raw_content "from-zone" ∧ containsStr cfg.raw_content "to-zone" then
        findings ++ ["Zone-to-zone policies configured ✓"]
      else findings
    if findings.isEmpty then
      (.not_reviewed, "Security policy configuration needs manual review")
    else (.pass, pyJoin "\n" findings)

/-- _check_session_timeout of JuniperSTIGEvaluator. -/
def check_session_timeout (cfg : JuniperSecurityConfig) (check_text fix_text title : String) :
    CheckStatus × String :=
  let findings : List String := []
  let findings :=
    if containsStr cfg.raw_content "idle-timeout" then
      match searchKeyNum "idle-timeout" cfg.raw_content with
      | some timeout =>
        let f := findings ++ ["Idle timeout configured: " ++ toString timeout ++ " minutes"]
        if timeout ≤ 10 then f ++ ["Timeout is 10 minutes or less ✓"]
        else f ++ ["WARNING: Timeout exceeds 10 minutes"]
      | none => findings
    else findings
  let findings :=
    if containsStrCI cfg.raw_content "cli idle-timeout" then
      findings ++ ["CLI idle-timeout configured ✓"]
    else findings
  if findings.isEmpty then (.fail, "No session timeout configuration found")
  else (.pass, pyJoin "\n" findings)

/-- _check_vpn of JuniperSTIGEvaluator. -/
def check_vpn (cfg : JuniperSecurityConfig) (check_text fix_text title : String) :
    CheckStatus × String :=
  let tl := lowerStr title
  let findings : List String := []
  let findings :=
    if ¬ cfg.security_ike.isEmpty then
      let f :=
        if containsStr tl "aes256" || containsStr tl "encryption" then
          if containsStrCI (pyReprDict cfg.security_ike) "aes256" ||
             containsStrCI cfg.raw_content "aes-256" then
            findings ++ ["IKE AES-256 encryption found ✓"]
          else findings
        else findings
      let f :=
        if containsStr tl "diffie-hellman" || containsStr tl "group" then
          if containsStrCI cfg.raw_content "group14" ||
             containsStrCI cfg.raw_content "group19" ||
             containsStrCI cfg.raw_content "group20" then
            f ++ ["Strong DH group configured ✓"]
          else f
        else f
      f ++ ["IKE configuration found ✓"]
    else if containsStrCI cfg.raw_content "ike" then
      findings ++ ["IKE configuration found in config"]
    else findings
  let findings :=
    if ¬ cfg.security_ipsec.isEmpty then findings ++ ["IPsec configuration found ✓"]
    else if containsStrCI cfg.raw_content "ipsec" then
      findings ++ ["IPsec configuration found in config"]
    else findings
  if findings.isEmpty then (.not_applicable, "VPN not configured on this device")
  else (.pass, pyJoin "\n" findings)

/-- _check_idp of JuniperSTIGEvaluator. -/
def check_idp (cfg : JuniperSecurityConfig) (check_text fix_text title : String) :
    CheckStatus × String :=
  if ¬ cfg.security_idp.isEmpty then
    let findings : List String := []
    let findings :=
      match assocGet cfg.security_idp "active_policy" with
      | some v =>
        if v.truthy then findings ++ ["IDP active policy: " ++ pyStrVal v ++ " ✓"]
        else findings
      | none => findings
    let findings :=
      if dictGetTruthy cfg.security_idp "security_package" then
        findings ++ ["IDP security package configured ✓"]
      else findings
    (.pass, pyJoin "\n" (findings ++ ["IDP configuration found ✓"]))
  else if containsStrCI cfg.raw_content "idp" then
    (.pass, pyJoin "\n" ["IDP configuration found in config"])
  else (.not_applicable, "IDP not configured on this device")

/-- _check_banner of JuniperSTIGEvaluator. -/
def check_banner (cfg : JuniperSecurityConfig) (check_text fix_text title : String) :
    CheckStatus × String :=
  let banner := cfg.login.banner.getD ""
  if banner ≠ "" then
    (.pass, "Login banner configured: \x27" ++ String.mk (banner.data.take 100) ++ "...\x27")
  else if containsStr cfg.raw_content "message" ∧ containsStr cfg.raw_content "login" then
    (.pass, "Login message/banner found in config ✓")
  else (.fail, "No login banner configured")

/-- _check_password_policy of JuniperSTIGEvaluator. -/
def check_password_policy (cfg : JuniperSecurityConfig) (check_text fix_text title : String) :
    CheckStatus × String :=
  let retry_options := cfg.login.retry_options
  let findings : List String := []
  let findings :=
    if ¬ retry_options.isEmpty then
      let f := findings ++ ["Login retry options configured ✓"]
      if containsStrCI (pyReprDict retry_options) "lockout_period" ||
         containsStr cfg.raw_content "lockout-period" then
        f ++ ["Account lockout period configured ✓"]
      else f
    else findings
  let findings :=
    if containsStr cfg.raw_content "retry-options" then
      findings ++ ["Retry options found in config ✓"]
    else findings
  let findings :=
    if containsStrCI cfg.raw_content "backoff" then
      findings ++ ["Login backoff configured ✓"]
    else findings
  if findings.isEmpty then (.fail, "No password/lockout policy found")
  else (.pass, pyJoin "\n" findings)

/-- The word class of the set-pattern capture [\\w\\-\\s] (ASCII). -/
def isSetPatChar (c : Char) : Bool :=
  c.isAlphanum || c = '_' || c = '-' || isSpaceC c

/-- The lazy capture run of the findall pattern
set\\s+([\\w\\-\\s]+?)(?:\\n|$|;): at least one class character, stopping
at the first newline, semicolon or end of text. -/
def setPatCapture : List Char → List Char → Option (List Char × List Char)
  | [], acc => if acc.isEmpty then none else some (acc.reverse, [])
  | c :: t, acc =>
    if ¬ acc.isEmpty ∧ (c = '\n' ∨ c = ';') then some (acc.reverse, t)
    else if isSetPatChar c then setPatCapture t (c :: acc)
    else none

/-- Attempt the set\\s+ opening at exactly this position. -/
def setPatHere (s : List Char) : Option (List Char × List Char) :=
  if "set".data.isPrefixOf s then
    let r := s.drop 3
    let ws := r.takeWhile isSpaceC
    if ws.isEmpty then none
    else setPatCapture (r.drop ws.length) []
  else none

/-- re.findall of set\\s+([\\w\\-\\s]+?)(?:\\n|$|;) over the lowered fix
text, scanning non-overlapping matches left to right. -/
def findSetPatterns : Nat → List Char → List String
  | 0, _ => []
  | _, [] => []
  | fuel + 1, s =>
    match setPatHere s with
    | some (cap, rest) => String.mk cap :: findSetPatterns fuel rest
    | none =>
      match s with
      | [] => []
      | _ :: t => findSetPatterns fuel t

/-- Anchored match of escaped words joined by \\s+ at this position. -/
def seqWsMatchHere : List Char → List (List Char) → Bool
  | _, [] => true
  | s, [w] => w.isPrefixOf s
  | s, w :: rest =>
    if w.isPrefixOf s then
      let r := s.drop w.length
      let ws := r.takeWhile isSpaceC
      ¬ ws.isEmpty && seqWsMatchHere (r.drop ws.length) rest
    else false

/-- re.search of escaped words joined by \\s+ (case-insensitive; both
sides are lowered by the caller). -/
def seqWsSearch (words : List (List Char)) : List Char → Bool
  | [] => seqWsMatchHere [] words
  | c :: t => seqWsMatchHere (c :: t) words || seqWsSearch words t

/-- _check_by_pattern of JuniperSTIGEvaluator: extract up to five set
patterns from the fix text and search the first three words of each in
the raw configuration.  (The source also extracts show commands from the
check text into show_cmds, which it never uses.) -/
def check_by_pattern (cfg : JuniperSecurityConfig) (check_text fix_text title : String) :
    CheckStatus × String :=
  let fixLow := lowerStr fix_text
  let set_patterns := findSetPatterns (fixLow.data.length + 1) fixLow.data
  let rawLow := lowerList cfg.raw_content.data
  let findings := (set_patterns.take 5).filterMap fun pat =>
    let pattern_words := (pySplitWs pat).take 3
    if seqWsSearch (pattern_words.map (fun w => lowerList w.data)) rawLow then
      some ("Pattern found: " ++ pyJoin " " pattern_words ++ "... ✓")
    else none
  if ¬ findings.isEmpty then (.pass, pyJoin "\n" findings)
  else (.not_reviewed, "Manual review required - automated check not available for this rule")

/-- _determine_category of JuniperSTIGEvaluator. -/
def determine_category (vuln_id title check_text : String) : JuniperSTIGCategory :=
  let tl := lowerStr title
  let cl := lowerStr check_text
  let hit := fun (kws : List String) =>
    kws.any fun kw => containsStr tl kw || containsStr cl kw
  if hit ["vpn", "ike", "ipsec", "tunnel", "certificate"] then .vpn
  else if hit ["idp", "ids", "intrusion", "attack signature"] then .idps
  else if hit ["snmp", "ssh", "ntp", "syslog", "logging", "authentication",
               "password", "account", "session", "banner", "management"] then .ndm
  else .alg

/-- _run_check of JuniperSTIGEvaluator: keyword dispatch on the title,
with the VPN and IDP categories routing the remaining rules.  (The
source also lowers the check text into check_lower, which this
dispatcher never reads.) -/
def run_check (cfg : JuniperSecurityConfig) (category : JuniperSTIGCategory)
    (vuln_id title check_text fix_text : String) : CheckStatus × String :=
  let tl := lowerStr title
  if containsStr tl "ssh" || containsStr tl "sshv2" then
    check_ssh cfg check_text fix_text title
  else if containsStr tl "snmp" then check_snmp cfg check_text fix_text title
  else if containsStr tl "ntp" || containsStr tl "time" then
    check_ntp cfg check_text fix_text title
  else if containsStr tl "log" || containsStr tl "syslog" || containsStr tl "audit" then
    check_logging cfg check_text fix_text title
  else if containsStr tl "authentication" || containsStr tl "tacacs" ||
          containsStr tl "radius" then
    check_authentication cfg check_text fix_text title
  else if containsStr tl "screen" || (containsStr tl "protect" ∧ containsStr tl "attack") then
    check_security_screen cfg check_text fix_text title
  else if containsStr tl "policy" || containsStr tl "zone" then
    check_security_policy cfg check_text fix_text title
  else if containsStr tl "timeout" || containsStr tl "idle" || containsStr tl "session" then
    check_session_timeout cfg check_text fix_text title
  else if category = .vpn then check_vpn cfg check_text fix_text title
  else if category = .idps then check_idp cfg check_text fix_text title
  else if containsStr tl "banner" then check_banner cfg check_text fix_text title
  else if containsStr tl "password" || containsStr tl "lockout" || containsStr tl "brute" then
    check_password_policy cfg check_text fix_text title
  else check_by_pattern cfg check_text fix_text title

/-- evaluate_rule of JuniperSTIGEvaluator: map the severity, determine
the category, run the check and assemble the AuditResultCreate (whose
rule_id field the source fills with the vuln_id). -/
def evaluate_rule (cfg : JuniperSecurityConfig)
    (vuln_id rule_id title severity check_text fix_text job_id : String) :
    AuditResultCreate :=
  let sl := lowerStr severity
  let stig_severity :=
    if sl = "high" then STIGSeverity.high
    else if sl = "medium" then STIGSeverity.medium
    else if sl = "low" then STIGSeverity.low
    else STIGSeverity.medium
  let category := determine_category vuln_id title check_text
  let sf := run_check cfg category vuln_id title check_text fix_text
  { job_id := job_id, rule_id := vuln_id, title := title,
    severity := stig_severity, status := sf.1, finding_details := sf.2 }

/-- The environment of the C8 counterexample: SNMP polling enabled, the
ifNumber GET fails (None), while the ifDescr walk returns one interface
whose oper status GET answers 1 (up). -/
def c8env : PollEnv :=
  { poll_icmp := false,
    icmp := { reachable := false, latency_ms := none, packet_loss_percent := 100 },
    poll_snmp := true,
    username := some "admin",
    vendor := "",
    uptime_response := none,
    cpu_result := none,
    memory_result := none,
    if_number_response := none,
    disk_result := none,
    walk_responses := [some ("1.3.6.1.2.1.2.2.1.2.1", SnmpVal.num 0)],
    row_env := fun _ => { oper_status := some (SnmpVal.num 1) },
    sophos_services := [] }

/-- C8 witness input: a consistent environment with ifNumber = 2 and one
walked interface that is up. -/
def c8wenv : PollEnv :=
  { c8env with if_number_response := some (SnmpVal.num 2) }

/-- The descendant relation on OID strings as the specification words
it: an OID is a descendant of the walk root when it equals the root or
extends it at a dot boundary (stated from the specification, for
comparison with the string-prefix test of the source). -/
def oidDescendant (child root : String) : Bool :=
  child = root || pyStartsWith child (root ++ ".")

/-- All fields of a findings list are non-empty. -/
def allNE (l : List String) : Prop := ∀ s ∈ l, s ≠ ""

/-! ## Helper lemmas -/

/-- A string append with a non-empty left part is non-empty. -/
theorem append_ne_of_left {s : String} (t : String) (h : s ≠ "") : s ++ t ≠ "" := by
  intro hc
  apply h
  have hd := congrArg String.data hc
  simp only [String.data_append] at hd
  have hsd : s.data = [] := by
    cases hl : s.data <;> simp_all
  cases s
  simp_all

/-- A join starting with a non-empty field is non-empty. -/
theorem pyJoin_cons_ne (sep s : String) (l : List String) (h : s ≠ "") :
    pyJoin sep (s :: l) ≠ "" := by
  cases l with
  | nil => simpa [pyJoin] using h
  | cons b t =>
    simp only [pyJoin]
    exact append_ne_of_left _ (append_ne_of_left _ h)

/-- A join of a non-empty list of non-empty fields is non-empty. -/
theorem pyJoin_ne (sep : String) (l : List String) (hne : l ≠ [])
    (hall : ∀ s ∈ l, s ≠ "") : pyJoin sep l ≠ "" := by
  cases l with
  | nil => exact absurd rfl hne
  | cons s t => exact pyJoin_cons_ne sep s t (hall s (by simp))

theorem allNE_nil : allNE [] := by intro s hs; simp at hs

theorem allNE_cons {s : String} {l : List String} (h : s ≠ "") (hl : allNE l) :
    allNE (s :: l) := by
  intro x hx
  rcases List.mem_cons.mp hx with rfl | hx
  exacts [h, hl x hx]

theorem allNE_append {l1 l2 : List String} (h1 : allNE l1) (h2 : allNE l2) :
    allNE (l1 ++ l2) := by
  intro s hs
  rcases List.mem_append.mp hs with h | h
  exacts [h1 s h, h2 s h]

attribute [irreducible] allNE

theorem check_ssh_proto_step_ne (ssh : PyDict) (raw tl : String) :
    allNE (check_ssh_proto_step ssh raw tl) := by
  unfold check_ssh_proto_step
  try dsimp only
  repeat' split
  all_goals
    repeat' first
      | exact allNE_nil
      | apply allNE_append
      | apply allNE_cons
  all_goals repeat' apply append_ne_of_left
  all_goals decide

theorem check_ssh_root_step_ne (ssh : PyDict) (raw tl : String) :
    allNE (check_ssh_root_step ssh raw tl).1 := by
  unfold check_ssh_root_step
  try dsimp only
  repeat' split
  all_goals
    repeat' first
      | exact allNE_nil
      | apply allNE_append
      | apply allNE_cons
  all_goals repeat' apply append_ne_of_left
  all_goals decide

theorem check_ssh_root_step_failed (ssh : PyDict) (raw tl : String)
    (h : (check_ssh_root_step ssh raw tl).2 = true) :
    (check_ssh_root_step ssh raw tl).1 ≠ [] := by
  unfold check_ssh_root_step at *
  try dsimp only at *
  repeat' split at h
  all_goals simp_all

theorem check_ssh_fips_step_ne (ssh : PyDict) (raw tl : String) :
    allNE (check_ssh_fips_step ssh raw tl) := by
  unfold check_ssh_fips_step
  try dsimp only
  repeat' split
  all_goals
    repeat' first
      | exact allNE_nil
      | apply allNE_append
      | apply allNE_cons
  all_goals repeat' apply append_ne_of_left
  all_goals decide

theorem pyJoin_ne_of_allNE (sep : String) (l : List String) (hne : l ≠ [])
    (hall : allNE l) : pyJoin sep l ≠ "" := by
  unfold allNE at hall
  exact pyJoin_ne sep l hne hall

theorem check_ssh_finding_ne (cfg : JuniperSecurityConfig) (ct ft title : String) :
    (check_ssh cfg ct ft title).2 ≠ "" := by
  unfold check_ssh
  try dsimp only
  split
  · decide
  · rename_i hguard
    set ssh := if cfg.services.ssh.isEmpty = true then [("enabled", PyVal.btrue)]
      else cfg.services.ssh with hssh
    set tl := lowerStr title with htl
    have hall : allNE (check_ssh_proto_step ssh cfg.raw_content tl ++
        (check_ssh_root_step ssh cfg.raw_content tl).1 ++
        check_ssh_fips_step ssh cfg.raw_content tl) :=
      allNE_append (allNE_append (check_ssh_proto_step_ne _ _ _)
        (check_ssh_root_step_ne _ _ _)) (check_ssh_fips_step_ne _ _ _)
    split
    · rename_i hfail
      apply pyJoin_ne_of_allNE _ _ _ hall
      have hn := check_ssh_root_step_failed ssh cfg.raw_content tl hfail
      intro hc
      rcases List.append_eq_nil.mp hc with ⟨h1, _⟩
      rcases List.append_eq_nil.mp h1 with ⟨_, h2⟩
      exact hn h2
    · split
      · decide
      · rename_i hne
        apply pyJoin_ne_of_allNE _ _ _ hall
        simpa using hne

theorem check_snmp_v3_step_ne (cfg : JuniperSecurityConfig) (tl : String) :
    allNE (check_snmp_v3_step cfg tl).1 := by
  unfold check_snmp_v3_step
  try dsimp only
  repeat' split
  all_goals
    repeat' first
      | exact allNE_nil
      | apply allNE_append
      | apply allNE_cons
  all_goals repeat' apply append_ne_of_left
  all_goals decide

theorem check_snmp_v3_step_failed (cfg : JuniperSecurityConfig) (tl : String)
    (h : (check_snmp_v3_step cfg tl).2 = true) : (check_snmp_v3_step cfg tl).1 ≠ [] := by
  unfold check_snmp_v3_step at *
  try dsimp only at *
  repeat' split at h
  all_goals simp_all

theorem check_snmp_comm_step_ne (cfg : JuniperSecurityConfig) (tl : String)
    (step1 : List String × Bool) (h1 : allNE step1.1) :
    allNE (check_snmp_comm_step cfg tl step1).1 := by
  unfold check_snmp_comm_step
  try dsimp only
  repeat' split
  all_goals
    repeat' first
      | assumption
      | exact allNE_nil
      | apply allNE_append
      | apply allNE_cons
  all_goals repeat' apply append_ne_of_left
  all_goals decide

theorem check_snmp_comm_step_failed (cfg : JuniperSecurityConfig) (tl : String)
    (step1 : List String × Bool) (h1 : step1.2 = true → step1.1 ≠ [])
    (h : (check_snmp_comm_step cfg tl step1).2 = true) :
    (check_snmp_comm_step cfg tl step1).1 ≠ [] := by
  unfold check_snmp_comm_step at *
  try dsimp only at *
  repeat' split at h
  all_goals simp_all

theorem check_snmp_finding_ne (cfg : JuniperSecurityConfig) (ct ft title : String) :
    (check_snmp cfg ct ft title).2 ≠ "" := by
  unfold check_snmp
  dsimp only
  have hall := check_snmp_comm_step_ne cfg (lowerStr title) _
    (check_snmp_v3_step_ne cfg (lowerStr title))
  split
  · rename_i hfail
    exact pyJoin_ne_of_allNE _ _
      (check_snmp_comm_step_failed cfg (lowerStr title) _
        (check_snmp_v3_step_failed cfg (lowerStr title)) hfail) hall
  · split
    · decide
    · rename_i hne
      exact pyJoin_ne_of_allNE _ _ (by simpa using hne) hall

theorem check_ntp_finding_ne (cfg : JuniperSecurityConfig) (ct ft title : String) :
    (check_ntp cfg ct ft title).2 ≠ "" := by
  unfold check_ntp
  have haux : ∀ (tl : String) (findings : List String), findings ≠ [] → allNE findings →
      pyJoin "\n" (check_ntp.ntpAuthStep cfg tl findings) ≠ "" := by
    intro tl findings hne hall
    unfold check_ntp.ntpAuthStep
    repeat' split
    all_goals
      apply pyJoin_ne_of_allNE
      · simp_all
      · repeat' first
          | assumption
          | exact allNE_nil
          | apply allNE_append
          | apply allNE_cons
        all_goals repeat' apply append_ne_of_left
        all_goals decide
  try dsimp only
  repeat' split
  · apply haux
    · simp
    · repeat' first
        | exact allNE_nil
        | apply allNE_append
        | apply allNE_cons
      repeat' apply append_ne_of_left
      decide
  · apply haux
    · simp
    · repeat' first
        | exact allNE_nil
        | apply allNE_append
        | apply allNE_cons
      all_goals repeat' apply append_ne_of_left
      all_goals decide
  · decide

theorem check_logging_syslog_step_ne (cfg : JuniperSecurityConfig) (tl : String) :
    allNE (check_logging_syslog_step cfg tl).1 := by
  unfold check_logging_syslog_step
  repeat' split
  all_goals
    repeat' first
      | exact allNE_nil
      | apply allNE_append
      | apply allNE_cons
  all_goals repeat' apply append_ne_of_left
  all_goals decide

theorem check_logging_syslog_step_nonempty (cfg : JuniperSecurityConfig) (tl : String) :
    (check_logging_syslog_step cfg tl).1 ≠ [] := by
  unfold check_logging_syslog_step
  repeat' split
  all_goals simp

theorem check_logging_seclog_step_ne (cfg : JuniperSecurityConfig) :
    allNE (check_logging_seclog_step cfg) := by
  unfold check_logging_seclog_step
  try dsimp only
  repeat' split
  all_goals
    repeat' first
      | exact allNE_nil
      | apply allNE_append
      | apply allNE_cons
  all_goals repeat' apply append_ne_of_left
  all_goals decide

theorem check_logging_policy_step_ne (cfg : JuniperSecurityConfig) (tl : String) :
    allNE (check_logging_policy_step cfg tl) := by
  unfold check_logging_policy_step
  try dsimp only
  repeat' split
  all_goals
    repeat' first
      | exact allNE_nil
      | apply allNE_append
      | apply allNE_cons
  all_goals repeat' apply append_ne_of_left
  all_goals decide

theorem check_logging_finding_ne (cfg : JuniperSecurityConfig) (ct ft title : String) :
    (check_logging cfg ct ft title).2 ≠ "" := by
  unfold check_logging
  dsimp only
  have hall : allNE ((check_logging_syslog_step cfg (lowerStr title)).1 ++
      check_logging_seclog_step cfg ++ check_logging_policy_step cfg (lowerStr title)) :=
    allNE_append (allNE_append (check_logging_syslog_step_ne _ _)
      (check_logging_seclog_step_ne _)) (check_logging_policy_step_ne _ _)
  have hne : (check_logging_syslog_step cfg (lowerStr title)).1 ++
      check_logging_seclog_step cfg ++ check_logging_policy_step cfg (lowerStr title) ≠ [] := by
    intro hc
    rcases List.append_eq_nil.mp hc with ⟨h1, _⟩
    rcases List.append_eq_nil.mp h1 with ⟨h2, _⟩
    exact check_logging_syslog_step_nonempty cfg (lowerStr title) h2
  split
  · exact pyJoin_ne_of_allNE _ _ hne hall
  · split
    · decide
    · exact pyJoin_ne_of_allNE _ _ hne hall

theorem check_authentication_finding_ne (cfg : JuniperSecurityConfig) (ct ft title : String) :
    (check_authentication cfg ct ft title).2 ≠ "" := by
  unfold check_authentication
  try dsimp only
  repeat' split
  all_goals first
    | decide
    | (apply pyJoin_ne_of_allNE
       · simp_all
       · repeat' first
           | exact allNE_nil
           | apply allNE_append
           | apply allNE_cons
         all_goals repeat' apply append_ne_of_left
         all_goals decide)

/-- A string append with a non-empty right part is non-empty. -/
theorem append_ne_of_right {t : String} (s : String) (h : t ≠ "") : s ++ t ≠ "" := by
  intro hc
  apply h
  have hd := congrArg String.data hc
  simp only [String.data_append] at hd
  have htd : t.data = [] := by
    cases hl : t.data <;> simp_all
  cases t
  simp_all

theorem screen_prot_ne (raw : String) :
    allNE (screenProtections.filterMap fun p =>
      if containsStr raw p.1 then some (p.2 ++ " ✓") else none) := by
  unfold allNE
  intro s hs
  rcases List.mem_filterMap.mp hs with ⟨a, _, hfa⟩
  split at hfa
  · cases hfa
    exact append_ne_of_right _ (by decide)
  · cases hfa

theorem screen_zone_ne (zones : List (String × ZoneCfg)) :
    allNE (zones.filterMap fun z =>
      match z.2.screen with
      | some sc =>
        if sc ≠ "" then
          some ("Screen applied to zone \x27" ++ z.1 ++ "\x27: " ++ sc ++ " ✓")
        else none
      | none => none) := by
  unfold allNE
  intro s hs
  rcases List.mem_filterMap.mp hs with ⟨a, _, hfa⟩
  split at hfa
  · split at hfa
    · cases hfa
      exact append_ne_of_right _ (by decide)
    · cases hfa
  · cases hfa

theorem check_security_screen_finding_ne (cfg : JuniperSecurityConfig)
    (ct ft title : String) : (check_security_screen cfg ct ft title).2 ≠ "" := by
  unfold check_security_screen
  try dsimp only
  repeat' split
  all_goals first
    | decide
    | (apply pyJoin_ne_of_allNE
       · first
         | (rename_i h
            simpa using h)
         | simp
       · repeat' first
           | exact allNE_nil
           | apply allNE_append
           | apply allNE_cons
           | exact screen_prot_ne _
           | exact screen_zone_ne _
         all_goals repeat' apply append_ne_of_left
         all_goals decide)
    | simp_all

theorem check_security_policy_finding_ne (cfg : JuniperSecurityConfig)
    (ct ft title : String) : (check_security_policy cfg ct ft title).2 ≠ "" := by
  unfold check_security_policy
  try dsimp only
  repeat' split
  all_goals first
    | decide
    | (apply pyJoin_ne_of_allNE
       · first
         | (rename_i h
            simpa using h)
         | simp
       · repeat' first
           | exact allNE_nil
           | apply allNE_append
           | apply allNE_cons
         all_goals repeat' apply append_ne_of_left
         all_goals decide)
    | simp_all

theorem check_session_timeout_finding_ne (cfg : JuniperSecurityConfig)
    (ct ft title : String) : (check_session_timeout cfg ct ft title).2 ≠ "" := by
  unfold check_session_timeout
  try dsimp only
  repeat' split
  all_goals first
    | decide
    | (apply pyJoin_ne_of_allNE
       · first
         | (rename_i h
            simpa using h)
         | simp
       · repeat' first
           | exact allNE_nil
           | apply allNE_append
           | apply allNE_cons
         all_goals repeat' apply append_ne_of_left
         all_goals decide)
    | simp_all

theorem check_vpn_finding_ne (cfg : JuniperSecurityConfig)
    (ct ft title : String) : (check_vpn cfg ct ft title).2 ≠ "" := by
  unfold check_vpn
  try dsimp only
  repeat' split
  all_goals first
    | decide
    | (apply pyJoin_ne_of_allNE
       · first
         | (rename_i h
            simpa using h)
         | simp
       · repeat' first
           | exact allNE_nil
           | apply allNE_append
           | apply allNE_cons
         all_goals repeat' apply append_ne_of_left
         all_goals decide)
    | simp_all

theorem check_idp_finding_ne (cfg : JuniperSecurityConfig)
    (ct ft title : String) : (check_idp cfg ct ft title).2 ≠ "" := by
  unfold check_idp
  try dsimp only
  repeat' split
  all_goals first
    | decide
    | (apply pyJoin_ne_of_allNE
       · first
         | (rename_i h
            simpa using h)
         | simp
       · repeat' first
           | exact allNE_nil
           | apply allNE_append
           | apply allNE_cons
         all_goals first
           | decide
           | (apply append_ne_of_right
              decide)
           | (repeat' apply append_ne_of_left
              decide))

theorem check_banner_finding_ne (cfg : JuniperSecurityConfig)
    (ct ft title : String) : (check_banner cfg ct ft title).2 ≠ "" := by
  unfold check_banner
  try dsimp only
  repeat' split
  all_goals first
    | decide
    | (repeat' apply append_ne_of_left
       decide)

theorem check_password_policy_finding_ne (cfg : JuniperSecurityConfig)
    (ct ft title : String) : (check_password_policy cfg ct ft title).2 ≠ "" := by
  unfold check_password_policy
  try dsimp only
  repeat' split
  all_goals first
    | decide
    | (apply pyJoin_ne_of_allNE
       · first
         | (rename_i h
            simpa using h)
         | simp
       · repeat' first
           | exact allNE_nil
           | apply allNE_append
           | apply allNE_cons
         all_goals repeat' apply append_ne_of_left
         all_goals decide)
    | simp_all

theorem by_pattern_findings_ne (pats : List String) (rawLow : List Char) :
    allNE (pats.filterMap fun pat =>
      let pattern_words := (pySplitWs pat).take 3
      if seqWsSearch (pattern_words.map (fun w => lowerList w.data)) rawLow then
        some ("Pattern found: " ++ pyJoin " " pattern_words ++ "... ✓")
      else none) := by
  unfold allNE
  intro s hs
  rcases List.mem_filterMap.mp hs with ⟨a, _, hfa⟩
  dsimp only at hfa
  split at hfa
  · cases hfa
    exact append_ne_of_left _ (append_ne_of_left _ (by decide))
  · cases hfa

theorem check_by_pattern_finding_ne (cfg : JuniperSecurityConfig)
    (ct ft title : String) : (check_by_pattern cfg ct ft title).2 ≠ "" := by
  unfold check_by_pattern
  try dsimp only
  split
  · rename_i hne
    apply pyJoin_ne_of_allNE
    · simpa using hne
    · exact by_pattern_findings_ne _ _
  · decide

/-- Every _run_check outcome carries a non-empty finding, whatever the
status. -/
theorem run_check_finding_ne (cfg : JuniperSecurityConfig)
    (category : JuniperSTIGCategory) (vuln_id title check_text fix_text : String) :
    (run_check cfg category vuln_id title check_text fix_text).2 ≠ "" := by
  unfold run_check
  dsimp only
  by_cases h1 : (containsStr (lowerStr title) "ssh" || containsStr (lowerStr title) "sshv2") = true
  · rw [if_pos h1]; exact check_ssh_finding_ne cfg check_text fix_text title
  · rw [if_neg h1]
    by_cases h2 : containsStr (lowerStr title) "snmp" = true
    · rw [if_pos h2]; exact check_snmp_finding_ne cfg check_text fix_text title
    · rw [if_neg h2]
      by_cases h3 : (containsStr (lowerStr title) "ntp" || containsStr (lowerStr title) "time") = true
      · rw [if_pos h3]; exact check_ntp_finding_ne cfg check_text fix_text title
      · rw [if_neg h3]
        by_cases h4 : (containsStr (lowerStr title) "log" || containsStr (lowerStr title) "syslog" ||
            containsStr (lowerStr title) "audit") = true
        · rw [if_pos h4]; exact check_logging_finding_ne cfg check_text fix_text title
        · rw [if_neg h4]
          by_cases h5 : (containsStr (lowerStr title) "authentication" ||
              containsStr (lowerStr title) "tacacs" || containsStr (lowerStr title) "radius") = true
          · rw [if_pos h5]; exact check_authentication_finding_ne cfg check_text fix_text title
          · rw [if_neg h5]
            by_cases h6 : (containsStr (lowerStr title) "screen" ||
                (containsStr (lowerStr title) "protect" ∧ containsStr (lowerStr title) "attack")) = true
            · rw [if_pos h6]; exact check_security_screen_finding_ne cfg check_text fix_text title
            · rw [if_neg h6]
              by_cases h7 : (containsStr (lowerStr title) "policy" ||
                  containsStr (lowerStr title) "zone") = true
              · rw [if_pos h7]; exact check_security_policy_finding_ne cfg check_text fix_text title
              · rw [if_neg h7]
                by_cases h8 : (containsStr (lowerStr title) "timeout" ||
                    containsStr (lowerStr title) "idle" || containsStr (lowerStr title) "session") = true
                · rw [if_pos h8]; exact check_session_timeout_finding_ne cfg check_text fix_text title
                · rw [if_neg h8]
                  by_cases h9 : category = JuniperSTIGCategory.vpn
                  · rw [if_pos h9]; exact check_vpn_finding_ne cfg check_text fix_text title
                  · rw [if_neg h9]
                    by_cases h10 : category = JuniperSTIGCategory.idps
                    · rw [if_pos h10]; exact check_idp_finding_ne cfg check_text fix_text title
                    · rw [if_neg h10]
                      by_cases h11 : containsStr (lowerStr title) "banner" = true
                      · rw [if_pos h11]; exact check_banner_finding_ne cfg check_text fix_text title
                      · rw [if_neg h11]
                        by_cases h12 : (containsStr (lowerStr title) "password" ||
                            containsStr (lowerStr title) "lockout" ||
                            containsStr (lowerStr title) "brute") = true
                        · rw [if_pos h12]; exact check_password_policy_finding_ne cfg check_text fix_text title
                        · rw [if_neg h12]; exact check_by_pattern_finding_ne cfg check_text fix_text title

/-! ## Poller phase projection lemmas -/

theorem icmp_phase_up (env : PollEnv) (m : DeviceMetrics) :
    (poll_icmp_phase env m).interface_up_count = m.interface_up_count := by
  unfold poll_icmp_phase; split <;> rfl

theorem icmp_phase_down (env : PollEnv) (m : DeviceMetrics) :
    (poll_icmp_phase env m).interface_down_count = m.interface_down_count := by
  unfold poll_icmp_phase; split <;> rfl

theorem icmp_phase_count (env : PollEnv) (m : DeviceMetrics) :
    (poll_icmp_phase env m).interface_count = m.interface_count := by
  unfold poll_icmp_phase; split <;> rfl

theorem uptime_phase_up (env : PollEnv) (m : DeviceMetrics) :
    (poll_uptime_phase env m).interface_up_count = m.interface_up_count := by
  unfold poll_uptime_phase; repeat' split
  all_goals rfl

theorem uptime_phase_down (env : PollEnv) (m : DeviceMetrics) :
    (poll_uptime_phase env m).interface_down_count = m.interface_down_count := by
  unfold poll_uptime_phase; repeat' split
  all_goals rfl

theorem uptime_phase_count (env : PollEnv) (m : DeviceMetrics) :
    (poll_uptime_phase env m).interface_count = m.interface_count := by
  unfold poll_uptime_phase; repeat' split
  all_goals rfl

theorem cpu_phase_up (env : PollEnv) (m : DeviceMetrics) :
    (poll_cpu_phase env m).interface_up_count = m.interface_up_count := by
  unfold poll_cpu_phase; repeat' split
  all_goals rfl

theorem cpu_phase_down (env : PollEnv) (m : DeviceMetrics) :
    (poll_cpu_phase env m).interface_down_count = m.interface_down_count := by
  unfold poll_cpu_phase; repeat' split
  all_goals rfl

theorem cpu_phase_count (env : PollEnv) (m : DeviceMetrics) :
    (poll_cpu_phase env m).interface_count = m.interface_count := by
  unfold poll_cpu_phase; repeat' split
  all_goals rfl

theorem memory_phase_up (env : PollEnv) (m : DeviceMetrics) :
    (poll_memory_phase env m).interface_up_count = m.interface_up_count := by
  unfold poll_memory_phase; repeat' split
  all_goals rfl

theorem memory_phase_down (env : PollEnv) (m : DeviceMetrics) :
    (poll_memory_phase env m).interface_down_count = m.interface_down_count := by
  unfold poll_memory_phase; repeat' split
  all_goals rfl

theorem memory_phase_count (env : PollEnv) (m : DeviceMetrics) :
    (poll_memory_phase env m).interface_count = m.interface_count := by
  unfold poll_memory_phase; repeat' split
  all_goals rfl

theorem ifnumber_phase_up (env : PollEnv) (m : DeviceMetrics) :
    (poll_ifnumber_phase env m).interface_up_count = m.interface_up_count := by
  unfold poll_ifnumber_phase; repeat' split
  all_goals rfl

theorem ifnumber_phase_down (env : PollEnv) (m : DeviceMetrics) :
    (poll_ifnumber_phase env m).interface_down_count = m.interface_down_count := by
  unfold poll_ifnumber_phase; repeat' split
  all_goals rfl

theorem ifnumber_phase_count_of_num (env : PollEnv) (m : DeviceMetrics) (n : Int)
    (h : env.if_number_response = some (SnmpVal.num n)) :
    (poll_ifnumber_phase env m).interface_count = n := by
  unfold poll_ifnumber_phase
  rw [h]
  rfl

theorem disk_phase_up (env : PollEnv) (m : DeviceMetrics) :
    (poll_disk_phase env m).interface_up_count = m.interface_up_count := by
  unfold poll_disk_phase; repeat' split
  all_goals rfl

theorem disk_phase_down (env : PollEnv) (m : DeviceMetrics) :
    (poll_disk_phase env m).interface_down_count = m.interface_down_count := by
  unfold poll_disk_phase; repeat' split
  all_goals rfl

theorem disk_phase_count (env : PollEnv) (m : DeviceMetrics) :
    (poll_disk_phase env m).interface_count = m.interface_count := by
  unfold poll_disk_phase; repeat' split
  all_goals rfl

theorem interfaces_phase_up (env : PollEnv) (m : DeviceMetrics) :
    (poll_interfaces_phase env m).interface_up_count =
      if (pollInterfaceData env).isEmpty then m.interface_up_count
      else (pollInterfaceData env).countP (fun i => i.oper_status = some 1) := by
  unfold poll_interfaces_phase
  dsimp only
  split <;> simp_all

theorem interfaces_phase_down (env : PollEnv) (m : DeviceMetrics) :
    (poll_interfaces_phase env m).interface_down_count =
      if (pollInterfaceData env).isEmpty then m.interface_down_count
      else (pollInterfaceData env).countP (fun i => i.oper_status = some 2) := by
  unfold poll_interfaces_phase
  dsimp only
  split <;> simp_all

theorem interfaces_phase_count (env : PollEnv) (m : DeviceMetrics) :
    (poll_interfaces_phase env m).interface_count = m.interface_count := by
  unfold poll_interfaces_phase
  dsimp only
  split <;> rfl

theorem services_phase_up (env : PollEnv) (m : DeviceMetrics) :
    (poll_services_phase env m).interface_up_count = m.interface_up_count := by
  unfold poll_services_phase; split <;> rfl

theorem services_phase_down (env : PollEnv) (m : DeviceMetrics) :
    (poll_services_phase env m).interface_down_count = m.interface_down_count := by
  unfold poll_services_phase; split <;> rfl

theorem services_phase_count (env : PollEnv) (m : DeviceMetrics) :
    (poll_services_phase env m).interface_count = m.interface_count := by
  unfold poll_services_phase; split <;> rfl

/-- The availability flag is True exactly when ICMP was reachable or a
positive uptime was recorded. -/
theorem device_is_available_iff (m : DeviceMetrics) :
    device_is_available m = true ↔
      (m.icmp_reachable = some true ∨ ∃ u : Int, m.uptime_seconds = some u ∧ 0 < u) := by
  unfold device_is_available
  cases h : m.uptime_seconds with
  | none => simp [h]
  | some u => simp [h]

theorem poll_device_up (env : PollEnv) :
    (poll_device env).interface_up_count =
      if env.poll_snmp ∧ env.username.isSome then
        (if (pollInterfaceData env).isEmpty then 0
         else (pollInterfaceData env).countP (fun i => i.oper_status = some 1))
      else 0 := by
  unfold poll_device
  dsimp only
  split
  · rw [services_phase_up, interfaces_phase_up, disk_phase_up, ifnumber_phase_up,
      memory_phase_up, cpu_phase_up, uptime_phase_up, icmp_phase_up]
  · rw [icmp_phase_up]

theorem poll_device_down (env : PollEnv) :
    (poll_device env).interface_down_count =
      if env.poll_snmp ∧ env.username.isSome then
        (if (pollInterfaceData env).isEmpty then 0
         else (pollInterfaceData env).countP (fun i => i.oper_status = some 2))
      else 0 := by
  unfold poll_device
  dsimp only
  split
  · rw [services_phase_down, interfaces_phase_down, disk_phase_down, ifnumber_phase_down,
      memory_phase_down, cpu_phase_down, uptime_phase_down, icmp_phase_down]
  · rw [icmp_phase_down]

theorem poll_device_count_of_num (env : PollEnv) (n : Int)
    (hg : env.poll_snmp ∧ env.username.isSome)
    (h : env.if_number_response = some (SnmpVal.num n)) :
    (poll_device env).interface_count = n := by
  unfold poll_device
  dsimp only
  rw [if_pos hg, services_phase_count, interfaces_phase_count, disk_phase_count,
    ifnumber_phase_count_of_num env _ n h]

/-- Counting two mutually exclusive predicates never exceeds the list
length. -/
theorem countP_add_countP_le_length {α : Type} (l : List α) (p q : α → Bool)
    (h : ∀ x ∈ l, ¬(p x = true ∧ q x = true)) :
    l.countP p + l.countP q ≤ l.length := by
  induction l with
  | nil => simp
  | cons a t ih =>
    have ht : ∀ x ∈ t, ¬(p x = true ∧ q x = true) := fun x hx => h x (by simp [hx])
    have ha := h a (by simp)
    have := ih ht
    rw [List.countP_cons, List.countP_cons]
    simp only [List.length_cons]
    by_cases hp : p a = true <;> by_cases hq : q a = true <;> simp_all <;> omega

/-- C2: for every device poll, the DeviceMetrics row satisfies
is_available = true if and only if icmp_reachable is true or
uptime_seconds is greater than 0
(_poll_device of snmpv3_poller.py, availability rule). -/
theorem c2_availability_iff (env : PollEnv) :
    (poll_device env).is_available = true ↔
      ((poll_device env).icmp_reachable = some true ∨
       ∃ u : Int, (poll_device env).uptime_seconds = some u ∧ 0 < u) := by
  unfold poll_device
  dsimp only
  apply device_is_available_iff


/-- C8 counterexample: when the ifNumber GET fails, total_interfaces
stays at its default 0 while the walk still yields one up interface, so
interfaces_up + interfaces_down exceeds total_interfaces. -/
theorem c8_counterexample :
    ¬ (((poll_device c8env).interface_up_count +
        (poll_device c8env).interface_down_count : Int) ≤
       (poll_device c8env).interface_count) := by
  decide

/-- C8 (amended): interfaces_up + interfaces_down never exceeds the
number of interfaces returned by the walk; it is bounded by
total_interfaces whenever the ifNumber GET returned an integer that is
at least the number of walked rows (the code never enforces consistency
between the two sources). -/
theorem c8_amended (env : PollEnv) :
    ((poll_device env).interface_up_count + (poll_device env).interface_down_count ≤
      (pollInterfaceData env).length) ∧
    (∀ n : Int, env.if_number_response = some (SnmpVal.num n) →
      env.poll_snmp = true → env.username.isSome →
      ((pollInterfaceData env).length : Int) ≤ n →
      ((poll_device env).interface_up_count +
        (poll_device env).interface_down_count : Int) ≤
        (poll_device env).interface_count) := by
  have hdisj : ∀ x ∈ pollInterfaceData env,
      ¬((x.oper_status = some 1 : Bool) = true ∧ (x.oper_status = some 2 : Bool) = true) := by
    intro x _ hc
    rcases hc with ⟨h1, h2⟩
    simp only [decide_eq_true_eq] at h1 h2
    rw [h1] at h2
    cases h2
  have hbound : (poll_device env).interface_up_count +
      (poll_device env).interface_down_count ≤ (pollInterfaceData env).length := by
    rw [poll_device_up, poll_device_down]
    by_cases hg : env.poll_snmp ∧ env.username.isSome
    · rw [if_pos hg, if_pos hg]
      by_cases hi : (pollInterfaceData env).isEmpty
      · simp [hi]
      · rw [if_neg hi, if_neg hi]
        exact countP_add_countP_le_length _ _ _ hdisj
    · simp [if_neg hg]
  refine ⟨hbound, ?_⟩
  intro n hifn hsnmp huser hlen
  have hg : env.poll_snmp ∧ env.username.isSome := ⟨hsnmp, huser⟩
  rw [poll_device_count_of_num env n hg hifn]
  calc ((poll_device env).interface_up_count +
      (poll_device env).interface_down_count : Int) ≤
      ((pollInterfaceData env).length : Int) := by exact_mod_cast hbound
    _ ≤ n := hlen


theorem c8_amended_witness :
    ((poll_device c8wenv).interface_up_count + (poll_device c8wenv).interface_down_count ≤
      (pollInterfaceData c8wenv).length) ∧
    (((poll_device c8wenv).interface_up_count +
        (poll_device c8wenv).interface_down_count : Int) ≤
      (poll_device c8wenv).interface_count) :=
  ⟨(c8_amended c8wenv).1,
   (c8_amended c8wenv).2 2 (by rfl) (by rfl) (by rfl) (by decide)⟩
/-! ## Claim C1: STIG finding contract -/

/-- C1 counterexample: at the explicit input of an empty parsed
configuration and the rule title "SNMP", the evaluator returns PASS
with the finding "SNMP configuration not detected (may be disabled)",
which contains no check-mark indicator and names no matched
configuration item, refuting the PASS half of the contract. -/
theorem c1_counterexample :
    (evaluate_rule {} "V-1" "R-1" "SNMP" "medium" "" "" "job").status = CheckStatus.pass ∧
    (evaluate_rule {} "V-1" "R-1" "SNMP" "medium" "" "" "job").finding_details =
      "SNMP configuration not detected (may be disabled)" ∧
    containsStr
      (evaluate_rule {} "V-1" "R-1" "SNMP" "medium" "" "" "job").finding_details
      "✓" = false := by
  decide

/-- C1 (amended): for every STIG rule evaluation of the Juniper
evaluator the finding text is non-empty (in particular whenever the
status is PASS or FAIL), but a PASS finding need not contain an
affirmative indicator of a matched configuration item: several handlers
pass with absence wording such as "SNMP configuration not detected (may
be disabled)". -/
theorem c1_amended (cfg : JuniperSecurityConfig)
    (vuln_id rule_id title severity check_text fix_text job_id : String) :
    (evaluate_rule cfg vuln_id rule_id title severity check_text
      fix_text job_id).finding_details ≠ "" := by
  unfold evaluate_rule
  dsimp only
  exact run_check_finding_ne cfg _ vuln_id title check_text fix_text

/-! ## Claim C3: SNMP walk -/


/-- C3 counterexample: at the explicit input of the ifDescr root
"1.3.6.1.2.1.2.2.1.2" and a single response with OID
"1.3.6.1.2.1.2.2.1.21", the walk collects the varbind although that OID
is not a descendant of the root: the source tests str.startswith on the
dotted strings, which accepts sibling columns such as ...2.2.1.21. -/
theorem c3_counterexample :
    walk "1.3.6.1.2.1.2.2.1.2" 1000 [some ("1.3.6.1.2.1.2.2.1.21", SnmpVal.num 5)] =
      [("1.3.6.1.2.1.2.2.1.21", SnmpVal.num 5)] ∧
    oidDescendant "1.3.6.1.2.1.2.2.1.21" "1.3.6.1.2.1.2.2.1.2" = false := by
  decide

/-- Upserting into the association list grows it by at most one. -/
theorem assocSet_length {β : Type} (d : List (String × β)) (k : String) (v : β) :
    (assocSet d k v).length ≤ d.length + 1 := by
  unfold assocSet
  by_cases h : d.any (fun p => p.1 = k)
  · rw [if_pos h, List.length_map]
    omega
  · rw [if_neg h, List.length_append]
    simp

/-- A member of the upserted association list is an old entry or the
new binding. -/
theorem assocSet_mem {β : Type} {d : List (String × β)} {k : String} {v : β}
    {p : String × β} (h : p ∈ assocSet d k v) : p ∈ d ∨ p = (k, v) := by
  unfold assocSet at h
  by_cases hany : d.any (fun q => q.1 = k)
  · rw [if_pos hany] at h
    rcases List.mem_map.1 h with ⟨q, hq, hqe⟩
    by_cases hk : q.1 = k
    · right
      rw [if_pos hk] at hqe
      exact hqe.symm
    · left
      rw [if_neg hk] at hqe
      rwa [hqe] at hq
  · rw [if_neg hany] at h
    rcases List.mem_append.1 h with h | h
    · left; exact h
    · right; simpa using h

/-- The walk loop never returns more rows than max_rows allows. -/
theorem walk_go_length (root : String) (max_rows : Nat) :
    ∀ (resps : List WalkResponse) (rows : Nat) (acc : List (String × SnmpVal)),
      acc.length ≤ rows → rows ≤ max_rows →
      (walk.go root max_rows resps rows acc).length ≤ max_rows := by
  intro resps
  induction resps with
  | nil =>
    intro rows acc h1 h2
    unfold walk.go
    by_cases hr : rows < max_rows
    · rw [if_pos hr]; exact le_trans h1 h2
    · rw [if_neg hr]; exact le_trans h1 h2
  | cons r rest ih =>
    intro rows acc h1 h2
    unfold walk.go
    by_cases hr : rows < max_rows
    · rw [if_pos hr]
      change Option (String × SnmpVal) at r
      match r with
      | none => exact le_trans h1 h2
      | some (oid, v) =>
        dsimp only
        by_cases hp : pyStartsWith oid root
        · rw [if_pos hp]
          exact ih (rows + 1) (assocSet acc oid v)
            (le_trans (assocSet_length acc oid v) (by omega)) hr
        · rw [if_neg hp]
          exact le_trans h1 h2
    · rw [if_neg hr]; exact le_trans h1 h2

/-- Every row collected by the walk loop has the root as a string
prefix of its OID, provided the accumulator already does. -/
theorem walk_go_mem (root : String) (max_rows : Nat) :
    ∀ (resps : List WalkResponse) (rows : Nat) (acc : List (String × SnmpVal)),
      (∀ p ∈ acc, pyStartsWith p.1 root = true) →
      ∀ p ∈ walk.go root max_rows resps rows acc, pyStartsWith p.1 root = true := by
  intro resps
  induction resps with
  | nil =>
    intro rows acc hacc
    unfold walk.go
    by_cases hr : rows < max_rows
    · rw [if_pos hr]; exact hacc
    · rw [if_neg hr]; exact hacc
  | cons r rest ih =>
    intro rows acc hacc
    unfold walk.go
    by_cases hr : rows < max_rows
    · rw [if_pos hr]
      change Option (String × SnmpVal) at r
      match r with
      | none => exact hacc
      | some (oid, v) =>
        dsimp only
        by_cases hp : pyStartsWith oid root
        · rw [if_pos hp]
          refine ih (rows + 1) (assocSet acc oid v) ?_
          intro p hpmem
          rcases assocSet_mem hpmem with h | h
          · exact hacc p h
          · rw [h]; exact hp
        · rw [if_neg hp]
          exact hacc
    · rw [if_neg hr]; exact hacc

/-- C3 (amended): the walk never collects more than max_rows entries
and every collected OID has the walk root as a string prefix; the
termination test is the string-prefix test of str.startswith, not the
descendant relation, so sibling OIDs that merely extend the root
textually (for example root "...2.2.1.2" and OID "...2.2.1.21") are
also collected instead of stopping the walk. -/
theorem c3_amended (root : String) (max_rows : Nat) (responses : List WalkResponse) :
    (walk root max_rows responses).length ≤ max_rows ∧
    ∀ p ∈ walk root max_rows responses, pyStartsWith p.1 root = true := by
  unfold walk
  exact ⟨walk_go_length root max_rows responses 0 [] (by simp) (Nat.zero_le _),
         walk_go_mem root max_rows responses 0 [] (by intro p hp; simp at hp)⟩

/-! ## Claim C4: circular-buffer size record -/

/-- C5: one insert failure followed by a successful retry loses no
event: the failed flush re-queues the swapped-out batch at the front of
the (empty, since buffer_lock is held) buffer and persists nothing, and
the retry then persists every event of the batch exactly once, emptying
the buffer. -/
theorem c5_flush_retry {α : Type} (st0 : CollectorState α)
    (hne : st0.event_buffer.isEmpty = false) :
    (flush_buffer_internal true st0).event_buffer = st0.event_buffer ∧
    (flush_buffer_internal true st0).db_events = st0.db_events ∧
    (flush_buffer_internal false (flush_buffer_internal true st0)).db_events =
      st0.db_events ++ st0.event_buffer ∧
    (flush_buffer_internal false (flush_buffer_internal true st0)).event_buffer =
      [] := by
  have h1 : flush_buffer_internal true st0 =
      { event_buffer := st0.event_buffer, db_events := st0.db_events } := by
    simp [flush_buffer_internal, hne, batch_size]
  have h2 : flush_buffer_internal false
      ({ event_buffer := st0.event_buffer,
         db_events := st0.db_events } : CollectorState α) =
      { event_buffer := [], db_events := st0.db_events ++ st0.event_buffer } := by
    simp [flush_buffer_internal, hne]
  rw [h1, h2]
  exact ⟨rfl, rfl, rfl, rfl⟩

theorem c5_flush_retry_witness :
    (CollectorState.mk [1] ([] : List Nat)).event_buffer.isEmpty = false ∧
    ((flush_buffer_internal true
        (CollectorState.mk [1] ([] : List Nat))).event_buffer = [1] ∧
     (flush_buffer_internal true
        (CollectorState.mk [1] ([] : List Nat))).db_events = [] ∧
     (flush_buffer_internal false (flush_buffer_internal true
        (CollectorState.mk [1] ([] : List Nat)))).db_events = [] ++ [1] ∧
     (flush_buffer_internal false (flush_buffer_internal true
        (CollectorState.mk [1] ([] : List Nat)))).event_buffer = []) :=
  ⟨by decide, c5_flush_retry (CollectorState.mk [1] ([] : List Nat)) (by decide)⟩

/-! ## Claim C6: the Cisco RFC 3164 frame -/

/-- C6 counterexample: at the explicit input frame, the parser yields
device_type = None, not "cisco": detect_device_type searches
hostname + message for the literal patterns (cisco, juniper, ...) and
the text "rtr1 Interface GigabitEthernet0/1, changed state to down"
matches none of them; the Cisco-style %LINK-3-UPDOWN tag is not
consulted. -/
theorem c6_counterexample :
    (parse_rfc3164 2026 "<189>Mar  1 09:00:00 rtr1 %LINK-3-UPDOWN: Interface GigabitEthernet0/1, changed state to down").device_type ≠ some "cisco" ∧
    (parse_rfc3164 2026 "<189>Mar  1 09:00:00 rtr1 %LINK-3-UPDOWN: Interface GigabitEthernet0/1, changed state to down").device_type = none := by
  decide

/-- C6 (amended): for every current year, parsing the frame yields
facility 23, severity 5, hostname "rtr1", app_name "%LINK-3-UPDOWN",
message "Interface GigabitEthernet0/1, changed state to down" and
event_type "link_state" as claimed, but device_type = None rather than
"cisco". -/
theorem c6_amended (currentYear : Nat) :
    (parse_rfc3164 currentYear "<189>Mar  1 09:00:00 rtr1 %LINK-3-UPDOWN: Interface GigabitEthernet0/1, changed state to down").facility = 23 ∧
    (parse_rfc3164 currentYear "<189>Mar  1 09:00:00 rtr1 %LINK-3-UPDOWN: Interface GigabitEthernet0/1, changed state to down").severity = 5 ∧
    (parse_rfc3164 currentYear "<189>Mar  1 09:00:00 rtr1 %LINK-3-UPDOWN: Interface GigabitEthernet0/1, changed state to down").hostname = some "rtr1" ∧
    (parse_rfc3164 currentYear "<189>Mar  1 09:00:00 rtr1 %LINK-3-UPDOWN: Interface GigabitEthernet0/1, changed state to down").app_name = some "%LINK-3-UPDOWN" ∧
    (parse_rfc3164 currentYear "<189>Mar  1 09:00:00 rtr1 %LINK-3-UPDOWN: Interface GigabitEthernet0/1, changed state to down").message = "Interface GigabitEthernet0/1, changed state to down" ∧
    (parse_rfc3164 currentYear "<189>Mar  1 09:00:00 rtr1 %LINK-3-UPDOWN: Interface GigabitEthernet0/1, changed state to down").device_type = none ∧
    (parse_rfc3164 currentYear "<189>Mar  1 09:00:00 rtr1 %LINK-3-UPDOWN: Interface GigabitEthernet0/1, changed state to down").event_type = some "link_state" :=
  ⟨rfl, rfl, rfl, rfl, rfl, rfl, rfl⟩

/-! ## Claim C7: SSH root-login rule -/

/-- C7: evaluating the SSH root-login rule against a configuration that
contains the line "set system services ssh root-login deny" returns
PASS with the finding "SSH root-login deny found in config ✓", and
against the same configuration without that line returns FAIL with the
finding "SSH root-login is not set to deny". -/
theorem c7_ssh_root_login :
    ((evaluate_rule (parseJuniperConfig "set system services ssh protocol-version v2\nset system services ssh root-login deny")
        "V-217001" "SRG" "SSH root-login" "high" "" "" "job").status = CheckStatus.pass ∧
     containsStr (evaluate_rule (parseJuniperConfig "set system services ssh protocol-version v2\nset system services ssh root-login deny")
        "V-217001" "SRG" "SSH root-login" "high" "" "" "job").finding_details
       "SSH root-login deny found in config ✓" = true) ∧
    ((evaluate_rule (parseJuniperConfig "set system services ssh protocol-version v2")
        "V-217001" "SRG" "SSH root-login" "high" "" "" "job").status = CheckStatus.fail ∧
     containsStr (evaluate_rule (parseJuniperConfig "set system services ssh protocol-version v2")
        "V-217001" "SRG" "SSH root-login" "high" "" "" "job").finding_details
       "SSH root-login is not set to deny" = true) := by
  decide

/-! ## Claim C10: parser totality and defaults -/

/-- Without a parseable PRI prefix the RFC 5424 detection test is
false. -/
theorem rfc5424Check_of_priHead_none {raw : List Char} (h : priHead raw = none) :
    rfc5424Check raw = false := by
  unfold rfc5424Check
  rw [h]

/-- C10: parse_syslog_message is a total function into
ParsedSyslogMessage; when the input has no parseable PRI prefix it
returns the default record with facility 1, severity 6 and the whole
input as the message, and an unparseable timestamp (here February 30)
yields timestamp = None while the rest of the frame still parses. -/
theorem c10_totality_defaults (currentYear : Nat) (raw : String)
    (h : priHead raw.data = none) :
    parse_syslog_message currentYear raw =
      { facility := 1, severity := 6, version := 0, timestamp := none, hostname := none,
        app_name := none, proc_id := none, msg_id := none, structured_data := none,
        message := raw, device_type := detect_device_type raw none,
        event_type := detect_event_type raw, raw_message := raw } ∧
    (parse_syslog_message 2026 "<34>Feb 30 12:00:00 host app: msg").timestamp = none ∧
    (parse_syslog_message 2026 "<34>Feb 30 12:00:00 host app: msg").hostname =
      some "host" := by
  refine ⟨?_, by decide, by decide⟩
  unfold parse_syslog_message
  rw [rfc5424Check_of_priHead_none h]
  rw [if_neg Bool.false_ne_true]
  unfold parse_rfc3164
  rw [h]

theorem c10_totality_defaults_witness :
    priHead "plain text message".data = none ∧
    (parse_syslog_message 2026 "plain text message" =
      { facility := 1, severity := 6, version := 0, timestamp := none, hostname := none,
        app_name := none, proc_id := none, msg_id := none, structured_data := none,
        message := "plain text message",
        device_type := detect_device_type "plain text message" none,
        event_type := detect_event_type "plain text message",
        raw_message := "plain text message" } ∧
    (parse_syslog_message 2026 "<34>Feb 30 12:00:00 host app: msg").timestamp = none ∧
    (parse_syslog_message 2026 "<34>Feb 30 12:00:00 host app: msg").hostname =
      some "host") :=
  ⟨by decide, c10_totality_defaults 2026 "plain text message" (by decide)⟩
/-! ## Claim C9: credential encryption round trip -/

/-- Decoding a hex digit character recovers its value. -/
theorem hexCharVal_hexDigitChar (n : Nat) (h : n < 16) :
    hexCharVal (hexDigitChar n) = some n := by
  interval_cases n <;> rfl

/-- A hex digit character is never a colon. -/
theorem hexDigitChar_ne_colon (n : Nat) : hexDigitChar n ≠ ':' := by
  unfold hexDigitChar
  rcases Nat.lt_or_ge n 16 with h | h
  · interval_cases n <;> decide
  · rw [List.getD_eq_default]
    · decide
    · have h16 : ("0123456789abcdef".data).length = 16 := rfl
      omega

/-- bytes.fromhex inverts bytes.hex on byte sequences. -/
theorem hexToBytes_flatMap (bs : List Nat) (h : ∀ b ∈ bs, b < 256) :
    hexToBytes (bs.flatMap byteToHex) = some bs := by
  induction bs with
  | nil => rfl
  | cons b t ih =>
    have hb : b < 256 := h b (List.mem_cons_self b t)
    have ht : ∀ x ∈ t, x < 256 := fun x hx => h x (List.mem_cons_of_mem b hx)
    have hdiv : b / 16 < 16 := by omega
    have hmod : b % 16 < 16 := by omega
    show hexToBytes (hexDigitChar (b / 16) :: hexDigitChar (b % 16) ::
      t.flatMap byteToHex) = some (b :: t)
    unfold hexToBytes
    rw [hexCharVal_hexDigitChar _ hdiv, hexCharVal_hexDigitChar _ hmod, ih ht]
    show some ((b / 16 * 16 + b % 16) :: t) = some (b :: t)
    rw [show b / 16 * 16 + b % 16 = b by omega]

/-- The hex encoding of a byte sequence contains no colon. -/
theorem bytesToHex_no_colon (bs : List Nat) :
    ∀ c ∈ (bytesToHex bs).data, c ≠ ':' := by
  intro c hc
  have hc' : c ∈ bs.flatMap byteToHex := hc
  rcases List.mem_flatMap.1 hc' with ⟨b, _, hcb⟩
  have : c = hexDigitChar (b / 16) ∨ c = hexDigitChar (b % 16) := by
    simpa [byteToHex] using hcb
  rcases this with h | h <;> rw [h] <;> exact hexDigitChar_ne_colon _

/-- str.split(":") never returns an empty field list. -/
theorem splitColon_ne_nil (l : List Char) : splitColon l ≠ [] := by
  induction l with
  | nil => simp [splitColon]
  | cons c t ih =>
    unfold splitColon
    cases h : splitColon t with
    | nil => exact absurd h ih
    | cons f rest =>
      dsimp only
      by_cases hc : c = ':'
      · rw [if_pos hc]; simp
      · rw [if_neg hc]; simp

/-- str.split(":") of a colon-free string is that one field. -/
theorem splitColon_no_colon (l : List Char) (h : ∀ c ∈ l, c ≠ ':') :
    splitColon l = [l] := by
  induction l with
  | nil => rfl
  | cons c t ih =>
    unfold splitColon
    rw [ih (fun x hx => h x (List.mem_cons_of_mem c hx))]
    dsimp only
    rw [if_neg (h c (List.mem_cons_self c t))]

/-- str.split(":") after a colon-free prefix and a colon: the prefix
becomes the first field. -/
theorem splitColon_append (a r : List Char) (h : ∀ c ∈ a, c ≠ ':') :
    splitColon (a ++ ':' :: r) = a :: splitColon r := by
  induction a with
  | nil =>
    rw [List.nil_append]
    rw [show splitColon (':' :: r) =
      match splitColon r with
      | [] => [[]]
      | f :: rest => if ':' = ':' then [] :: f :: rest else (':' :: f) :: rest from rfl]
    cases hs : splitColon r with
    | nil => exact absurd hs (splitColon_ne_nil r)
    | cons f rest =>
      show (if (':' : Char) = ':' then ([] : List Char) :: f :: rest
        else (':' :: f) :: rest) = [] :: f :: rest
      rw [if_pos rfl]
  | cons c t ih =>
    have ih' := ih (fun x hx => h x (List.mem_cons_of_mem c hx))
    rw [List.cons_append]
    rw [show splitColon (c :: (t ++ ':' :: r)) =
      match splitColon (t ++ ':' :: r) with
      | [] => [[]]
      | f :: rest => if c = ':' then [] :: f :: rest else (c :: f) :: rest from rfl]
    rw [ih']
    show (if c = ':' then [] :: t :: splitColon r else (c :: t) :: splitColon r) =
      (c :: t) :: splitColon r
    rw [if_neg (h c (List.mem_cons_self c t))]

/-- Flattening constant-length pieces multiplies the length. -/
theorem flatMap_const_length {α β : Type} (l : List α) (f : α → List β) (n : Nat)
    (h : ∀ a, (f a).length = n) : (l.flatMap f).length = n * l.length := by
  induction l with
  | nil => simp
  | cons a t ih =>
    rw [List.flatMap_cons, List.length_append, h a, ih, List.length_cons, Nat.mul_succ]
    omega

/-- A 128-bit block always renders as 16 bytes. -/
theorem natToBlock_length (n : Nat) : (natToBlock n).length = 16 := by
  unfold natToBlock
  rw [List.length_map, List.length_range]

/-- Every rendered block byte is below 256. -/
theorem natToBlock_lt (n : Nat) : ∀ b ∈ natToBlock n, b < 256 := by
  intro b hb
  unfold natToBlock at hb
  rcases List.mem_map.1 hb with ⟨i, _, hi⟩
  exact hi ▸ Nat.mod_lt _ (by norm_num)

/-- The GCM keystream is exactly as long as the data. -/
theorem gcmKeystream_length (encBlock : Nat → Nat) (j0 len : Nat) :
    (gcmKeystream encBlock j0 len).length = len := by
  unfold gcmKeystream
  rw [List.length_take]
  have hflat : ((List.range ((len + 15) / 16)).flatMap
      fun i => natToBlock (encBlock (j0 + 1 + i))).length = 16 * ((len + 15) / 16) := by
    rw [flatMap_const_length _ _ 16 (fun a => natToBlock_length _), List.length_range]
  rw [hflat]
  have h1 := Nat.div_add_mod (len + 15) 16
  have h2 : (len + 15) % 16 < 16 := Nat.mod_lt _ (by norm_num)
  omega

/-- Every keystream byte is below 256. -/
theorem gcmKeystream_lt (encBlock : Nat → Nat) (j0 len : Nat) :
    ∀ b ∈ gcmKeystream encBlock j0 len, b < 256 := by
  intro b hb
  unfold gcmKeystream at hb
  have hb' := List.mem_of_mem_take hb
  rcases List.mem_flatMap.1 hb' with ⟨i, _, hbi⟩
  exact natToBlock_lt _ b hbi

/-- XOR of two byte sequences stays below 256 pointwise. -/
theorem zipWith_xor_lt (pt ks : List Nat) (h1 : ∀ b ∈ pt, b < 256)
    (h2 : ∀ b ∈ ks, b < 256) :
    ∀ b ∈ List.zipWith (fun a b => a ^^^ b) pt ks, b < 256 := by
  induction pt generalizing ks with
  | nil => intro b hb; simp at hb
  | cons p t ih =>
    intro b hb
    cases ks with
    | nil => simp at hb
    | cons k kt =>
      rw [List.zipWith_cons_cons] at hb
      rcases List.mem_cons.1 hb with h | h
      · have h256 : (256 : Nat) = 2 ^ 8 := by norm_num
        rw [h, h256]
        exact Nat.xor_lt_two_pow
          (by rw [← h256]; exact h1 p (List.mem_cons_self p t))
          (by rw [← h256]; exact h2 k (List.mem_cons_self k kt))
      · exact ih kt (fun x hx => h1 x (List.mem_cons_of_mem p hx))
          (fun x hx => h2 x (List.mem_cons_of_mem k hx)) b h

/-- XOR with the same keystream twice is the identity. -/
theorem zipWith_xor_cancel (pt ks : List Nat) (h : pt.length ≤ ks.length) :
    List.zipWith (fun a b => a ^^^ b)
      (List.zipWith (fun a b => a ^^^ b) pt ks) ks = pt := by
  induction pt generalizing ks with
  | nil => simp
  | cons p t ih =>
    cases ks with
    | nil => simp at h
    | cons k kt =>
      rw [List.zipWith_cons_cons, List.zipWith_cons_cons]
      have hx : p ^^^ k ^^^ k = p := by
        rw [Nat.xor_assoc, Nat.xor_self, Nat.xor_zero]
      rw [hx, ih kt (by simpa using h)]

/-- The library GCM output is the ciphertext plus a 16-byte tag. -/
theorem aesgcmEncrypt_length (encBlock : Nat → Nat) (iv pt : List Nat) :
    (aesgcmEncrypt encBlock iv pt).length = pt.length + 16 := by
  unfold aesgcmEncrypt
  dsimp only
  rw [List.length_append, natToBlock_length, List.length_zipWith,
    gcmKeystream_length, Nat.min_self]

/-- Every byte of the GCM output is below 256 when the plaintext bytes
are. -/
theorem aesgcmEncrypt_lt (encBlock : Nat → Nat) (iv pt : List Nat)
    (hptb : ∀ b ∈ pt, b < 256) :
    ∀ b ∈ aesgcmEncrypt encBlock iv pt, b < 256 := by
  intro b hb
  unfold aesgcmEncrypt at hb
  dsimp only at hb
  rcases List.mem_append.1 hb with h | h
  · exact zipWith_xor_lt _ _ hptb (gcmKeystream_lt _ _ _) b h
  · exact natToBlock_lt _ b h

/-- AESGCM.decrypt inverts AESGCM.encrypt for every block cipher, IV
and plaintext. -/
theorem aesgcm_roundtrip (encBlock : Nat → Nat) (iv pt : List Nat) :
    aesgcmDecrypt encBlock iv (aesgcmEncrypt encBlock iv pt) = some pt := by
  have hks : (gcmKeystream encBlock (blockToNat iv * 2 ^ 32 + 1) pt.length).length =
      pt.length := gcmKeystream_length _ _ _
  unfold aesgcmEncrypt aesgcmDecrypt
  dsimp only
  set j0 := blockToNat iv * 2 ^ 32 + 1 with hj0
  set ks := gcmKeystream encBlock j0 pt.length with hksdef
  set ct := List.zipWith (fun a b => a ^^^ b) pt ks with hct
  set tag := natToBlock (ghashBlocks (encBlock 0) (gcmTagInput ct) ^^^ encBlock j0) with htag
  have hctlen : ct.length = pt.length := by
    rw [hct, List.length_zipWith, hks, Nat.min_self]
  have htaglen : tag.length = 16 := by rw [htag]; exact natToBlock_length _
  have hdatalen : (ct ++ tag).length = ct.length + 16 := by
    rw [List.length_append, htaglen]
  rw [if_neg (by omega : ¬ (ct ++ tag).length < 16)]
  have hsub : (ct ++ tag).length - 16 = ct.length := by omega
  have htake : (ct ++ tag).take ((ct ++ tag).length - 16) = ct := by
    rw [hsub]; exact List.take_left ct tag
  have hdrop : (ct ++ tag).drop ((ct ++ tag).length - 16) = tag := by
    rw [hsub]; exact List.drop_left ct tag
  rw [htake, hdrop, ← htag, if_pos rfl, hctlen, ← hksdef, hct]
  exact congrArg some (zipWith_xor_cancel pt ks (by rw [hks]))

/-- CryptoService.encrypt of a non-empty plaintext, written as the
colon-joined hex fields of the IV, the tag and the ciphertext. -/
theorem cryptoEncrypt_eq (encBlock : Nat → Nat) (iv pt : List Nat) (hpt : pt ≠ []) :
    cryptoEncrypt encBlock iv pt =
      bytesToHex iv ++ ":" ++
        bytesToHex ((aesgcmEncrypt encBlock iv pt).drop
          ((aesgcmEncrypt encBlock iv pt).length - 16)) ++ ":" ++
        bytesToHex ((aesgcmEncrypt encBlock iv pt).take
          ((aesgcmEncrypt encBlock iv pt).length - 16)) := by
  unfold cryptoEncrypt
  rw [if_neg (fun hc => hpt (List.isEmpty_iff.1 hc))]

/-- Appending strings concatenates their character data. -/
theorem string_data_append (a b : String) : (a ++ b).data = a.data ++ b.data := by
  cases a; cases b; rfl
/-- C9: for every block cipher instance, 12-byte IV and non-empty byte
plaintext, CryptoService.decrypt inverts CryptoService.encrypt; the
ciphertext string is three hex fields separated by ASCII colons whose
first field decodes to the 12-byte IV and whose second decodes to the
16-byte GCM tag; and the AES-256 key is the scrypt of the configured
secret with salt "salt" (bytes 115, 97, 108, 116), N = 16384, r = 8,
p = 1 and dklen = 32. -/
theorem c9_roundtrip (encBlock : Nat → Nat) (iv pt : List Nat)
    (hiv : iv.length = 12) (hivb : ∀ b ∈ iv, b < 256)
    (hpt : pt ≠ []) (hptb : ∀ b ∈ pt, b < 256) :
    cryptoDecrypt encBlock (cryptoEncrypt encBlock iv pt) = some pt ∧
    (∃ ivHex tagHex ctHex,
      splitColon (cryptoEncrypt encBlock iv pt).data = [ivHex, tagHex, ctHex] ∧
      hexToBytes ivHex = some iv ∧ iv.length = 12 ∧
      (∃ tag, hexToBytes tagHex = some tag ∧ tag.length = 16) ∧
      (∃ ct, hexToBytes ctHex = some ct ∧ ct.length = pt.length)) ∧
    (∀ (scryptFn : List Nat → List Nat → Nat → Nat → Nat → Nat → List Nat)
        (raw_key : List Nat),
      cryptoServiceKey scryptFn raw_key =
        scryptFn raw_key [115, 97, 108, 116] 16384 8 1 32) := by
  have henc := cryptoEncrypt_eq encBlock iv pt hpt
  set E := aesgcmEncrypt encBlock iv pt with hE
  set tag := E.drop (E.length - 16) with htagd
  set ct := E.take (E.length - 16) with hctd
  have hElen : E.length = pt.length + 16 := by
    rw [hE]; exact aesgcmEncrypt_length encBlock iv pt
  have hEb : ∀ b ∈ E, b < 256 := by
    rw [hE]; exact aesgcmEncrypt_lt encBlock iv pt hptb
  have htagb : ∀ b ∈ tag, b < 256 := fun b hb => hEb b (List.mem_of_mem_drop hb)
  have hctb : ∀ b ∈ ct, b < 256 := fun b hb => hEb b (List.mem_of_mem_take hb)
  have htaglen : tag.length = 16 := by
    rw [htagd, List.length_drop]; omega
  have hctlen : ct.length = pt.length := by
    rw [hctd, List.length_take]; omega
  have hdata : (cryptoEncrypt encBlock iv pt).data =
      (bytesToHex iv).data ++ ':' ::
        ((bytesToHex tag).data ++ ':' :: (bytesToHex ct).data) := by
    rw [henc]
    simp only [string_data_append, List.append_assoc]
    rfl
  have hsplit : splitColon (cryptoEncrypt encBlock iv pt).data =
      [(bytesToHex iv).data, (bytesToHex tag).data, (bytesToHex ct).data] := by
    rw [hdata, splitColon_append _ _ (bytesToHex_no_colon iv),
      splitColon_append _ _ (bytesToHex_no_colon tag),
      splitColon_no_colon _ (bytesToHex_no_colon ct)]
  have h1 : hexToBytes (bytesToHex iv).data = some iv := hexToBytes_flatMap iv hivb
  have h2 : hexToBytes (bytesToHex tag).data = some tag := hexToBytes_flatMap tag htagb
  have h3 : hexToBytes (bytesToHex ct).data = some ct := hexToBytes_flatMap ct hctb
  have hnonempty : ¬ cryptoEncrypt encBlock iv pt = "" := by
    intro hc
    have hd : (cryptoEncrypt encBlock iv pt).data = [] := by rw [hc]
    rw [hdata] at hd
    simp at hd
  have hdec : cryptoDecrypt encBlock (cryptoEncrypt encBlock iv pt) = some pt := by
    unfold cryptoDecrypt
    rw [if_neg hnonempty, hsplit]
    show (match hexToBytes (bytesToHex iv).data, hexToBytes (bytesToHex tag).data,
        hexToBytes (bytesToHex ct).data with
      | some iv2, some auth_tag, some encrypted =>
        aesgcmDecrypt encBlock iv2 (encrypted ++ auth_tag)
      | _, _, _ => none) = some pt
    rw [h1, h2, h3]
    show aesgcmDecrypt encBlock iv (ct ++ tag) = some pt
    have hcttag : ct ++ tag = E := by
      rw [hctd, htagd]; exact List.take_append_drop _ E
    rw [hcttag, hE]
    exact aesgcm_roundtrip encBlock iv pt
  exact ⟨hdec,
    ⟨(bytesToHex iv).data, (bytesToHex tag).data, (bytesToHex ct).data, hsplit,
      h1, hiv, ⟨tag, h2, htaglen⟩, ⟨ct, h3, hctlen⟩⟩,
    fun scryptFn raw_key => rfl⟩

theorem c9_roundtrip_witness :
    (List.replicate 12 0).length = 12 ∧
    (∀ b ∈ List.replicate 12 (0 : Nat), b < 256) ∧
    ([1, 2, 3] : List Nat) ≠ [] ∧
    (∀ b ∈ ([1, 2, 3] : List Nat), b < 256) ∧
    (cryptoDecrypt (fun _ => 0)
        (cryptoEncrypt (fun _ => 0) (List.replicate 12 0) [1, 2, 3]) =
      some [1, 2, 3] ∧
    (∃ ivHex tagHex ctHex,
      splitColon (cryptoEncrypt (fun _ => 0)
          (List.replicate 12 0) [1, 2, 3]).data = [ivHex, tagHex, ctHex] ∧
      hexToBytes ivHex = some (List.replicate 12 0) ∧
      (List.replicate 12 (0 : Nat)).length = 12 ∧
      (∃ tag, hexToBytes tagHex = some tag ∧ tag.length = 16) ∧
      (∃ ct, hexToBytes ctHex = some ct ∧
        ct.length = ([1, 2, 3] : List Nat).length)) ∧
    (∀ (scryptFn : List Nat → List Nat → Nat → Nat → Nat → Nat → List Nat)
        (raw_key : List Nat),
      cryptoServiceKey scryptFn raw_key =
        scryptFn raw_key [115, 97, 108, 116] 16384 8 1 32)) :=
  ⟨by decide, by decide, by decide, by decide,
   c9_roundtrip (fun _ => 0) (List.replicate 12 0) [1, 2, 3]
     (by decide) (by decide) (by decide) (by decide)⟩
